import Mathlib

/-!
Shallow embedding of the open-addressing hash map in `src/src/hashmap.rs`
(jeffbarg/rust-hashmap), together with proofs and refutations of the
specification's claims about it.

Modelling conventions:
* machine integers (`usize`, `u64`) are `Nat` with explicit `% 2 ^ 64`
  where the width matters;
* the slot array `Box<[Option<(K, V)>]>` is a `List (Option (K × V))`;
* the `while num_iterations < self.capacity` probe loops become
  fuel-indexed recursions with fuel `capacity`; the `panic!` at the end of
  `insert` / `get` / `remove`, and divergence of the unbounded rehash loop
  in `resize_underlying_table`, are modelled as the `none` result;
* the hash function is a parameter `hashF : K → Nat` standing for
  `hash_key` (whose codomain is `u64`; we truncate with `% 2 ^ 64`).
-/

namespace RustHashMap

/-- DEFAULT_CAPACITY from `src/src/hashmap.rs` line 3. -/
def DEFAULT_CAPACITY : Nat := 20

/-- The table state: `elements`, `size`, `capacity`, as in the Rust struct
`HashMap<K, V>` (lines 18–22). -/
structure HashMap (K V : Type) where
  elements : List (Option (K × V))
  size : Nat
  capacity : Nat
deriving DecidableEq

variable {K V : Type} [DecidableEq K]

/-- `HashMap::new` (lines 28–41): `DEFAULT_CAPACITY` empty slots, size 0. -/
def new : HashMap K V :=
  { elements := List.replicate DEFAULT_CAPACITY none
    size := 0
    capacity := DEFAULT_CAPACITY }

/-- Number of non-empty slots of the table (not a source function; used to
state the `size`-vs-occupancy invariant claims). -/
def occupied (m : HashMap K V) : Nat :=
  m.elements.countP fun s => s.isSome

/-- Number of slots whose entry has key `k` (not a source function; used to
state the key-uniqueness invariant claims). -/
def keyCount (k : K) (m : HashMap K V) : Nat :=
  m.elements.countP fun s =>
    match s with
    | some (k1, _) => decide (k1 = k)
    | none => false

/-- The probe loop of `HashMap::insert` (lines 54–80).  Fuel is the number
of remaining iterations (`capacity - num_iterations`); `none` is the
`panic!` at line 84.  Note the faithful rendering of `.take()` at line 56:
the probed slot is emptied, and only the `None` and key-match branches
write a value back — a probed slot holding a *different* key is left empty
and its entry is dropped. -/
def insertLoop (key : K) (value : V) :
    Nat → Nat → HashMap K V → Option (Option V × HashMap K V)
  | 0, _, _ => none
  | fuel + 1, idx, m =>
    match m.elements.getD idx none with
    | none =>
        some (none,
          { m with
              elements := m.elements.set idx (some (key, value))
              size := m.size + 1 })
    | some (existing_key, existing_value) =>
        if key = existing_key then
          some (some existing_value,
            { m with elements := m.elements.set idx (some (key, value)) })
        else
          insertLoop key value fuel ((idx + 1) % m.capacity)
            { m with elements := m.elements.set idx none }

/-- The probe loop of `HashMap::get` (lines 104–124); `none` is the
`panic!` at line 128.  `some none` is a normal `None` return. -/
def getLoop (key : K) : Nat → Nat → HashMap K V → Option (Option V)
  | 0, _, _ => none
  | fuel + 1, idx, m =>
    match m.elements.getD idx none with
    | some (existing_key, value) =>
        if key = existing_key then some (some value)
        else getLoop key fuel ((idx + 1) % m.capacity) m
    | none => some none

/-- The probe loop of `HashMap::remove` (lines 140–159); `none` is the
`panic!` at line 163.  On a key match the slot is `take()`n (vacated) and
the value returned; note that `size` is never changed. -/
def removeLoop (key : K) : Nat → Nat → HashMap K V → Option (Option V × HashMap K V)
  | 0, _, _ => none
  | fuel + 1, idx, m =>
    match m.elements.getD idx none with
    | some (existing_key, v) =>
        if existing_key = key then
          some (some v, { m with elements := m.elements.set idx none })
        else removeLoop key fuel ((idx + 1) % m.capacity) m
    | none => some (none, m)

/-- The inner `while elements_vec[hashed_index].is_some()` loop of
`resize_underlying_table` (lines 186–189) followed by the store at line
190.  The Rust loop is unbounded; it diverges exactly when the new vector
has no empty slot, which we model with fuel `new_capacity` (the number of
distinct probed slots) and result `none`. -/
def rehashLoop (newCap : Nat) (key : K) (value : V) :
    Nat → Nat → List (Option (K × V)) → Option (List (Option (K × V)))
  | 0, _, _ => none
  | fuel + 1, idx, vec =>
    match vec.getD idx none with
    | some _ => rehashLoop newCap key value fuel ((idx + 1) % newCap) vec
    | none => some (vec.set idx (some (key, value)))

/-- The `for item in self.elements.iter_mut()` rehashing pass of
`resize_underlying_table` (lines 182–192), moving every occupied old slot
into the new vector in array order. -/
def rehashAll (hashF : K → Nat) (newCap : Nat) :
    List (Option (K × V)) → List (Option (K × V)) → Option (List (Option (K × V)))
  | [], vec => some vec
  | none :: rest, vec => rehashAll hashF newCap rest vec
  | some (key, value) :: rest, vec =>
      (rehashLoop newCap key value newCap (hashF key % 2 ^ 64 % newCap) vec).bind
        (rehashAll hashF newCap rest)

/-- `HashMap::resize_underlying_table` (lines 173–196): double the
capacity, rehash every entry into a fresh vector, install it. -/
def resize_underlying_table (hashF : K → Nat) (m : HashMap K V) : Option (HashMap K V) :=
  (rehashAll hashF (m.capacity * 2) m.elements
      (List.replicate (m.capacity * 2) none)).map fun vec =>
    { elements := vec, size := m.size, capacity := m.capacity * 2 }

/-- `HashMap::resize_if_needed` (lines 166–172).  The Rust test is
`(new_size as f64) > (self.capacity as f64) * LOAD_FACTOR` with
`LOAD_FACTOR = 0.7`.  Both casts are exact (all values are far below
`2 ^ 53`), and for every capacity this program ever has — `20 * 2 ^ k` —
the `f64` product rounds to exactly `14 * 2 ^ k = 7 * capacity / 10`:
`fl(0.7) = 0.7 - 2 ^ (-52) / 5`, so `20 * 2 ^ k * fl(0.7)` is exactly
halfway between `14 * 2 ^ k` and its `f64` predecessor, and
round-half-to-even picks `14 * 2 ^ k` (even mantissa).  Hence the `f64`
comparison coincides with the exact rational test
`size + 1 > 7 * capacity / 10`, i.e. `10 * (size + 1) > 7 * capacity`. -/
def resize_if_needed (hashF : K → Nat) (m : HashMap K V) : Option (HashMap K V) :=
  if 7 * m.capacity < 10 * (m.size + 1) then resize_underlying_table hashF m
  else some m

/-- `HashMap::insert` (lines 43–85): proactive resize, then probe from
`hash(key) % capacity`. -/
def insert (hashF : K → Nat) (key : K) (value : V) (m : HashMap K V) :
    Option (Option V × HashMap K V) :=
  (resize_if_needed hashF m).bind fun m1 =>
    insertLoop key value m1.capacity (hashF key % 2 ^ 64 % m1.capacity) m1

/-- `HashMap::get` (lines 94–129). -/
def get (hashF : K → Nat) (key : K) (m : HashMap K V) : Option (Option V) :=
  getLoop key m.capacity (hashF key % 2 ^ 64 % m.capacity) m

/-- `HashMap::contains_key` (lines 87–92): `get(key).map(|_| true).unwrap_or(false)`. -/
def contains_key (hashF : K → Nat) (key : K) (m : HashMap K V) : Option Bool :=
  (get hashF key m).map fun r => r.isSome

/-- `HashMap::remove` (lines 131–164). -/
def remove (hashF : K → Nat) (key : K) (m : HashMap K V) :
    Option (Option V × HashMap K V) :=
  removeLoop key m.capacity (hashF key % 2 ^ 64 % m.capacity) m

/-- Table states reachable from `new()` through the public mutating
operations (`get` / `contains_key` take `&self` and return no state).
A state is only produced when the operation returns normally (`some`). -/
inductive Reachable (hashF : K → Nat) : HashMap K V → Prop where
  | mk_new : Reachable hashF new
  | mk_insert {m : HashMap K V} {k : K} {v : V} {r : Option V} {m' : HashMap K V} :
      Reachable hashF m → insert hashF k v m = some (r, m') → Reachable hashF m'
  | mk_remove {m : HashMap K V} {k : K} {r : Option V} {m' : HashMap K V} :
      Reachable hashF m → remove hashF k m = some (r, m') → Reachable hashF m'

/-- The state invariant maintained by the public operations: the capacity
is the slot-array length and at least `DEFAULT_CAPACITY`, the number of
occupied slots never exceeds `size`, and `size` is at most 7/10 of the
capacity. -/
def Inv (m : HashMap K V) : Prop :=
  m.capacity = m.elements.length ∧ DEFAULT_CAPACITY ≤ m.capacity ∧
    occupied m ≤ m.size ∧ 10 * m.size ≤ 7 * m.capacity

/-! ### A model of the concrete hash function

`hash_key` (lines 7–16) feeds the key to `std::hash::DefaultHasher`, whose
code is not part of this repository.

Modelled from the spec: the spec (§4.1) requires only "a deterministic,
pure function of the key's content" returning an unsigned 64-bit integer;
the standard library's `DefaultHasher` is SipHash-1-3 with both key words
zero, and `i64` keys are hashed by feeding their 8 little-endian bytes
(one 64-bit message word).  We model exactly that. -/

/-- Truncation to 64 bits. -/
def w64 (n : Nat) : Nat := n % 2 ^ 64

/-- 64-bit rotate left (argument assumed `< 2 ^ 64`). -/
def rotl64 (x r : Nat) : Nat := w64 (x <<< r) ||| x >>> (64 - r)

/-- The four 64-bit words of the SipHash state. -/
structure SipState where
  v0 : Nat
  v1 : Nat
  v2 : Nat
  v3 : Nat

/-- One SipRound. -/
def sipRound (s : SipState) : SipState :=
  let v0 := w64 (s.v0 + s.v1)
  let v1 := rotl64 s.v1 13
  let v1 := v1 ^^^ v0
  let v0 := rotl64 v0 32
  let v2 := w64 (s.v2 + s.v3)
  let v3 := rotl64 s.v3 16
  let v3 := v3 ^^^ v2
  let v0 := w64 (v0 + v3)
  let v3 := rotl64 v3 21
  let v3 := v3 ^^^ v0
  let v2 := w64 (v2 + v1)
  let v1 := rotl64 v1 17
  let v1 := v1 ^^^ v2
  let v2 := rotl64 v2 32
  ⟨v0, v1, v2, v3⟩

/-- Iterated SipRounds. -/
def sipRounds : Nat → SipState → SipState
  | 0, s => s
  | n + 1, s => sipRounds n (sipRound s)

/-- SipHash initial state for key `(k0, k1)`. -/
def sipInit (k0 k1 : Nat) : SipState :=
  ⟨0x736f6d6570736575 ^^^ k0, 0x646f72616e646f6d ^^^ k1,
   0x6c7967656e657261 ^^^ k0, 0x7465646279746573 ^^^ k1⟩

/-- Absorb one 64-bit message word with `c` compression rounds. -/
def sipCompress (c : Nat) (m : Nat) (s : SipState) : SipState :=
  let s1 := sipRounds c { s with v3 := s.v3 ^^^ m }
  { s1 with v0 := s1.v0 ^^^ m }

/-- SipHash finalization: absorb the length-and-tail word `b`, xor `0xff`
into `v2`, run `d` rounds, xor the state words together. -/
def sipFinish (c d : Nat) (len tail : Nat) (s : SipState) : Nat :=
  let b := w64 (((len % 256) <<< 56) ||| tail)
  let s1 := sipCompress c b s
  let s2 := sipRounds d { s1 with v2 := s1.v2 ^^^ 0xff }
  s2.v0 ^^^ s2.v1 ^^^ s2.v2 ^^^ s2.v3

/-- `DefaultHasher` (SipHash-1-3, zero key) applied to one `u64` word:
what `hash_key::<i64>` computes for a non-negative `i64` key. -/
def defaultHashU64 (x : Nat) : Nat :=
  sipFinish 1 3 8 0 (sipCompress 1 (w64 x) (sipInit 0 0))

/-- The concrete hash used by the program on `i64` keys (our keys are
non-negative, so the two's-complement bit pattern is the value itself). -/
def rustHash (k : Nat) : Nat := defaultHashU64 k

/-- One step of the spec's concrete scenario (§8): insert key `3 * i` with
value `8 * i + 5`; if the insert panicked (it never does from reachable
states) keep the state. -/
def insOne (m : HashMap Nat Nat) (i : Nat) : HashMap Nat Nat :=
  match insert rustHash (3 * i) (8 * i + 5) m with
  | some (_, m1) => m1
  | none => m

/-- Run `insOne` for `i = lo, lo + 1, …, lo + n - 1`.  The spec's concrete
scenario is `insFrom new 0 1000`. -/
def insFrom (m : HashMap Nat Nat) (lo : Nat) : Nat → HashMap Nat Nat
  | 0 => m
  | n + 1 => insFrom (insOne m lo) (lo + 1) n


/-! ### A packed mirror of the table on `Nat` digits

The concrete-scenario claim requires evaluating one thousand inserts
inside the kernel.  Doing that directly on the list-based embedding is
infeasible (list reads and writes cost a kernel reduction step per cell),
so we mirror the table state as a single natural number holding one
base-`2 ^ 27` digit per slot (`0` = empty, `1 + k * 8192 + v` = entry
`(k, v)`; all keys and values of the scenario are below `8192`), mirror
each operation on this representation, and prove — generically, not per
run — that the mirror computes exactly the image of the source-level
operations under `decodeSlots`.  The claim theorems themselves are stated
on the source-level definitions only. -/

/-- Base of one packed slot digit. -/
def slotBase : Nat := 2 ^ 27

/-- Digit `i` of a packed slot vector. -/
def digit (w i : Nat) : Nat := w / slotBase ^ i % slotBase

/-- Replace digit `i` of `w` by `c` (for `c < slotBase`). -/
def setDigit (w i c : Nat) : Nat :=
  (w / slotBase ^ (i + 1) * slotBase + c) * slotBase ^ i + w % slotBase ^ i

/-- Decode one slot digit. -/
def decodeSlot (c : Nat) : Option (Nat × Nat) :=
  if c = 0 then none else some ((c - 1) / 8192, (c - 1) % 8192)

/-- Encode one slot into a digit. -/
def encodeSlot : Option (Nat × Nat) → Nat
  | none => 0
  | some (k, v) => 1 + k * 8192 + v

/-- Decode a packed vector of `len` slots. -/
def decodeSlots : Nat → Nat → List (Option (Nat × Nat))
  | 0, _ => []
  | len + 1, w => decodeSlot (w % slotBase) :: decodeSlots len (w / slotBase)

/-- Packed table state. -/
structure PHashMap where
  w : Nat
  size : Nat
  capacity : Nat
deriving DecidableEq

/-- Decode a packed state into the source-level state. -/
def unpack (p : PHashMap) : HashMap Nat Nat :=
  ⟨decodeSlots p.capacity p.w, p.size, p.capacity⟩

/-- Packed `new`. -/
def pNew : PHashMap := ⟨0, 0, DEFAULT_CAPACITY⟩

/-- Packed mirror of `insertLoop`. -/
def pInsertLoop (key value : Nat) : Nat → Nat → PHashMap → Option (Option Nat × PHashMap)
  | 0, _, _ => none
  | fuel + 1, idx, p =>
    if digit p.w idx = 0 then
      some (none,
        ⟨setDigit p.w idx (encodeSlot (some (key, value))), p.size + 1, p.capacity⟩)
    else if key = (digit p.w idx - 1) / 8192 then
      some (some ((digit p.w idx - 1) % 8192),
        ⟨setDigit p.w idx (encodeSlot (some (key, value))), p.size, p.capacity⟩)
    else
      pInsertLoop key value fuel ((idx + 1) % p.capacity)
        ⟨setDigit p.w idx 0, p.size, p.capacity⟩

/-- Packed mirror of `getLoop`. -/
def pGetLoop (key : Nat) : Nat → Nat → PHashMap → Option (Option Nat)
  | 0, _, _ => none
  | fuel + 1, idx, p =>
    if digit p.w idx = 0 then some none
    else if key = (digit p.w idx - 1) / 8192 then
      some (some ((digit p.w idx - 1) % 8192))
    else pGetLoop key fuel ((idx + 1) % p.capacity) p

/-- Packed mirror of `rehashLoop`. -/
def pRehashLoop (newCap key value : Nat) : Nat → Nat → Nat → Option Nat
  | 0, _, _ => none
  | fuel + 1, idx, vw =>
    if digit vw idx = 0 then some (setDigit vw idx (encodeSlot (some (key, value))))
    else pRehashLoop newCap key value fuel ((idx + 1) % newCap) vw

/-- Packed mirror of `rehashAll`. -/
def pRehashAll (hashF : Nat → Nat) (newCap : Nat) : Nat → Nat → Nat → Option Nat
  | 0, _, vw => some vw
  | len + 1, ow, vw =>
    if ow % slotBase = 0 then pRehashAll hashF newCap len (ow / slotBase) vw
    else
      (pRehashLoop newCap ((ow % slotBase - 1) / 8192) ((ow % slotBase - 1) % 8192)
          newCap (hashF ((ow % slotBase - 1) / 8192) % 2 ^ 64 % newCap) vw).bind
        (pRehashAll hashF newCap len (ow / slotBase))

/-- Packed mirror of `resize_underlying_table`. -/
def pResize (hashF : Nat → Nat) (p : PHashMap) : Option PHashMap :=
  (pRehashAll hashF (p.capacity * 2) p.capacity p.w 0).map fun vw =>
    ⟨vw, p.size, p.capacity * 2⟩

/-- Packed mirror of `resize_if_needed`. -/
def pResizeIfNeeded (hashF : Nat → Nat) (p : PHashMap) : Option PHashMap :=
  if 7 * p.capacity < 10 * (p.size + 1) then pResize hashF p else some p

/-- Packed mirror of `insert`. -/
def pInsert (hashF : Nat → Nat) (key value : Nat) (p : PHashMap) :
    Option (Option Nat × PHashMap) :=
  (pResizeIfNeeded hashF p).bind fun p1 =>
    pInsertLoop key value p1.capacity (hashF key % 2 ^ 64 % p1.capacity) p1

/-- Packed mirror of `get`. -/
def pGet (hashF : Nat → Nat) (key : Nat) (p : PHashMap) : Option (Option Nat) :=
  pGetLoop key p.capacity (hashF key % 2 ^ 64 % p.capacity) p

/-- Packed mirror of `contains_key`. -/
def pContains (hashF : Nat → Nat) (key : Nat) (p : PHashMap) : Option Bool :=
  (pGet hashF key p).map fun r => r.isSome

/-- Packed mirror of `insOne`. -/
def pInsOne (p : PHashMap) (i : Nat) : PHashMap :=
  match pInsert rustHash (3 * i) (8 * i + 5) p with
  | some (_, q) => q
  | none => p

/-- Packed mirror of `insFrom`. -/
def pInsFrom (p : PHashMap) (lo : Nat) : Nat → PHashMap
  | 0 => p
  | n + 1 => pInsFrom (pInsOne p lo) (lo + 1) n

/-- Packed state after the first 100 scenario inserts (computed by the mirror). -/
def pW100 : Nat := 204770137110337117018500164367936908539528091216116527828244901395469844922326686099175293985237360510644323859196928761372605137717509671487810431990427487688023578886325561462684754952315369383177221873455293836196475756152330671339648800107665605474648420062741470026723895471323524551862474548031732423026907637322914491198926430718758240791485925054512204949415833783841967762079042139940906707702042481148736733052475452307699122811430786574601620136600522803642720328485685584529023285817809746768249738215073940764791813530869953804947353249042582991364151557965577879570827319338591289807873955381050247882950278872242467936937070784962549429456258745897136423102934351766488843847646913586210447385367120230406040055496306871820141198895519646524954554478577502405440899186029604806773022901576815960583427440883257714218174362105116101529568317846036535455030443136140778523658891459259724865630719935658201495815359993483571009935013005103217490188251596172270696715625450345060231252335963818603080743454163039670824030153914849153182388592975026029995080983771600491647710749475571610151252387636647596802572658768855005980143827022816763744790697517209629395162617678850602816741351660139362791605804121872707660178293357026683060942984585299111225352515650278

def pS100 : PHashMap := ⟨pW100, 100, 160⟩

/-- Packed state after the first 200 scenario inserts (computed by the mirror). -/
def pW200 : Nat := 1442909391501738966652748459448202233048959852545636607102783464782691691750606057766211816370753995402864297158223001974686458204141675133910207880418619164688003770115497936762333528191446378383529520314812176241234371372243009026316751963932744386593573295136509874283486463701235805317873307688970736680786132608697165116387429692400854528694335815731431026948777980785444659259915385081332367225941995453282675326362590316496330710513893117297218123995047813937118590822890047799935851063183431219659528952693954200259017551407880349756393873527119385258118795485918767848033820328663966164906895329488237608349199953059633771990206368628926120931202215687480196105128442519483383599820880015809357658752699993945222614316441459939079614597891506171470201424820777182045385753277411718578302254164798036881922861697232127739360034064489250695206270023588952370340058245623378013819440714139140368356689134195974926494662089674121769086752694128114241903405489749925891956759940348669807678715385917802389973679165789756011969013993419343361677782564354243942132975511598584627301210662157742107860257475822675037850595675930873039449396078349706644803660156117110175465995848997873132864001556793404297370934700530768463006396836500801958030006604211837104942829720500483958458373097132059428154761724418911846690749905316503134432302867355849887743098198228985746060449700416695270402994434987327229598673508823026625737870244621702519967191944520056518025906969196851236720600083894159500526506016574613778569114084925898817440926624813095150214502683458932706419459702723451819833802396962219363102706930869202038678420381044533684237455029939375561621050824611392873652218868895383207138398514508433442461466663670910592546320308731324950843983564896366068600632466089100130123245342507576743421744107937805766173473245003835948897670798482276330532465099127389389986521691841459052373216505748286720402103255808080105490514439430205399419635989794047887169159202962198761273019146332211373459269909769579066970730169440632920850283407300337746132528476327166141426627678412410629097292672732421681516624195402858584861952868810636641716601912317180282922779833590926324852929610373898562879496511788526472675209225587448813000538637107407719977857692838380159722849076249230968233570000613325326729774835512804961781755957894214136693789042559214518137974743828048108107615331400311461012310047934878628334036850183457146747951934743812148266511390475334694020798467781837739129002472672646524802876390963578346102703036201753352013931012612046011109031566135741079596991974

def pS200 : PHashMap := ⟨pW200, 200, 320⟩

/-- Packed state after the first 300 scenario inserts (computed by the mirror). -/
def pW300 : Nat := 248746064523266615696525482575906564249948567454320720234454778262147700306265789782462817280765569138123002505804792423222422776244936472653557079309032771262125015805890702524114971332607969409451183834691899725573502612249739749968568180887587957669047940661510831623672414293047550324847337076061327053332104613644327642651704238220220277952324928784660537211841008438339954507385001358271614104894104116376299321517735486532912305784462886398614202605543930379409000453870762598813095247973987900650295321235976179156057279008641194656777602853288560147417634492666295276331342147639894296614695809982944095877935379552912491628004954070263931093098618727246803267001881456805769721803329711774172877377748491564421304509473768670520638642335160944458654240126785527814074306591023176956598430515245579729627632783324759207956058924968898182228791854718105771708052146454625135529059895524875055110396730592127089803488306422581542418264684384652778706398062995723863459068810749382523198322401534577653196108413144770506925551994402043177823354030858897380387577732831849531231050138247410470849504396498004114138401248161593811647374153690408909273808913954525919667893509741602180185048959037507658875642215023587304674241379718603175622075695678331000365355889858131630491755747868388943090384945715556323658088638602417868880152283046903908634764616128603133671056267345168080250576521727704708162938462335089802154210290924785735382458687195993500481646989274303562284178668931951820359790532824078241517140505386705753967294030861244981844760275093586955183151871576116062832332626450625126661385000447951988512029731656838185606598852205107640832901252909554520277247345413416620222033737195770601540805228429395883613833607983826508615331569804786949230042366405109711385710262288950789655196366442399317593955514557676312149156113262142230686004550136980628193303209798497418283867381276613800160183993052674089797120974009288751984511649517802310375760971924123194882267164682814326792918920166003454631731939443873243202597583281305744452830946065251686311859829074183974736693722319678375319855922273035476985347207457441120486811262667796707141281431712171112388382969449529784458154710787370922653165048517197591588951324003102173140014716876893380465658629141862147484167696031614276699771931309645756730968802035524353260339113744781411827647701779717111200468057771268499763224550267501877063252332271131658910991795602259271276982342048040872922365469308469131556022409022522886754260291780339699516422717562474366436835581089624379623394410631150851788334581523910212155436653006595580895907227044913224453695951633373248051882667747819439345447047360338511090367402027863326310886738723918237498757368226632550363028244932442107488479165842975640298001141708498451318992799312449527312158617904891283887224200615219799295609760107510918082028182794997526622717912807630307354055790615462754120832627308995776407856233864458164655618516144154689830410157512966938469871723168733036355259802404842374331080740724798552731465677097492186852996989947034505795881687819462746295155662272634173636290198348232963966448907974404790161117054863717562923447197827330530702511240784754095164921818050188627857636138036218839546855753343557996981832233276282324949366179497046336462462908046468906593940783788472217671229303523728267174692489484512961127132978152153440548684118365962614657455741844627659835998208815085382495518401083166625398431108649353183320141841826705537366783627209978557142116540528425618691731191101033748302754405514647324970706425095821588530941292653857971684460495793917828496732800572522730269775425066225081903376735820767681761611040576925467932750076794401254729704995152352084261227571940095599253024887794892965949297468942610588813379102555406850735779384003841338446232170123560012455574888958670964832658409026404355198546051442493575360892228291858234826462030928525209546886317297128498270253081184058292850526546004279204841218254263081723755666259970780554242501054513495110793951767207717935581382370127333383348706246918128943642888846971021250727588289219290534486681255524449747284920816826510742576546957125395629615537240805859580478038104996935821477713780111194776639875023323630655466593137956704536249922999946774803371743839178217030397604932835322583499573254110894493372238814447662174158507178703771533895524700480932648602954671581664591506379069337946531556121035593598657265813070599792778728574904220217341130939722219299119928231603547718164603667613252518288100547077006916285010568252442836877801069471479669181430354610566516226262777558477516569082325081185421469765751164677515160934878059804496600086938930714169601885027389332741301473210378754812906138248567768949517650542609669495638984981289304341716553761194007401406372867295850529794511892256712402553020522062491472660376557136592145066407470489247235976271722818349864455107483955831070285231448234495285907969862898240263321581474651352487368279523586024376546141063906180961567628198356309967809754924784654198618660324115025101348749512424687329563237270112351924923388085516215682835060004740124751267556586576323413695971475629187909006280097792

def pS300 : PHashMap := ⟨pW300, 300, 640⟩

/-- Packed state after the first 400 scenario inserts (computed by the mirror). -/
def pW400 : Nat := 248746064523266615696525482575906564249948567454377795564460139912828944831580063360466546736977779691213196043803008875028912600906181211140844174239758871713074817067257078918772979091227411854609758996470893779214735104793000012478021828323528826030363515859889718585708503116850545510553409021663027088802456124189403709139064028844295724923152057675837253077522795635240290397718614988668052816293521978281065775528789554356159141702230499030241969123403281602068326999322579787274502982276330211799825298733694358335605457108451141639338125921083759162634958267017627984923188307900376240720774982667056654585053565718674722067525317373498248655636159571642387306247992137618162456414534490232620750470645751118661607484584291751613032539848716041230446824970186711282574409489703504065522278230614254646673049923954098142483872458595368676865975671363908723741061558664559711800390976783160779019588368481849366013844017827200781005208563558702072385228554129193628987245959294212585618871609322380243640349700220136098452566796844300322168940898444997380005464173192073402129227486660280054776212482185453774014476777457418526029319712674403064523403529522985523707119772238240578170335028924870304859728430414210429647094418287602728326272216771150709514524540171785057113968213384828113350647368927238316188556563635436980822655621339470639798770729922877618244105461578147549218769971530930500178734390981350172370715502734359687100178838504666570105305764923645864522562378116782960354400491001190252236284490749069512757722688139560171195402332545752213732737942979710931372957199517956528865828665506139303285758489330380270172586776023840830629028856402814962478397005820674114181381137352197483319136781419510097219099418976164122052489322389223880160018325823193575121080891822191284038686794474800421261582438901104979117846205704669490781256447616136348684885297805538345498469388848430476142040994094131153101558487908758150116054973419587351121046430785840627406733368567255853195361262777948154892103401728799715401983532694663938933941943593670035753212508392586439140286756228282236480842232590371061116499884811056782092827370731176609753490384859738808665493364025794138479357474179434433614902973746489163405625495760218107977510844853363340826602792345082672849416529447419377501653307880717735521144434908676288595612587881351475909727275096459968379669960843484966173659061411458385438716660616505614811540823863846331731195723906008788128680112699246379415415120414628317755405261251664731025320211918785790175535833243123961391065790633939279933929781191441193081376394777336606929180863607299077025348350098053769125508516868289573120752206095847579395432955202148374306028997414203821906129408741760672815415380369649561490328489851857259224744775068513665150540780938104185048275685169360689120655082947066997459816427414437000868129485021579541378592790614640429889438722276273501211984835794216208986258846044317220727940881150636014052858573673346337332698899049700392017029456763722257922422892667321110407193720428670143537759259492754450239096987322207543049885656717403997019951261629124410462041949384308451487824930652952265510310802649919991315609014737237001114432507471254108206736167307209803888288919248408239051683490664442121212788315153444621259815653011752317665080764777110969997348909849516647913265236903889930893151536214522847271632911886358848340589826594411101059776269210986428252856669501851817777707650670042854094180572431628148037873574021353708531856986994567449129829489346378200042974791590645995795604886740454868343565281836458402833414513659373310595652482445387200847148528784840188411643099574233983144781314523727148931725537796859023320441765012547350833080789706864943610993806974958695741880212848319844518779969748821421709549877335833722352503193367565294553715351068285199558911809083273741086087484934794302877576714538294162940548386566377999667686095978635223344847058891896955710011614491964347155747726736993193782905959777406023364367796267092783376522526882478687611823555761070836150166679866627068413320544638411791314097919107895338355446039110258075128306721316271033978371859366706282039206954772358303593498856445537585353574738295422588910983313392986574427874621205444058065218476189626597433563713264121682082459429329360057184332989260885766274374401572746892448346308608943450595448246126114376429956801634104862446495868806293822233728284638051250811858981066348033069822257981274344442145667416874427341819019885264939091908083397725694412238446963988650336933827435478305978175682471340578058106419217208862459756612340068401382044575273371885969723474171999970741511828348172664115446841898727281603108488244049735189965317532049753464066653193868807425992186269018507617074109969107793908409495018979546128086147463217520060745129600481126867374071572789675165831937999465119474347501014777010630054971216608541447891731232796780791187297132339833437993015105934858069303482812017051638331072110603517017497566095875368175839933795659103861999539823265136984100426652422632988313003112932055727360364948448673383820636963635568721037285843727098893004558523582066216219956516671261169942528

def pS400 : PHashMap := ⟨pW400, 400, 640⟩

/-- Packed state after the first 500 scenario inserts (computed by the mirror). -/
def pW500 : Nat := 1164853768544460941237936083081242663850909345253839927138124882765218095668638194785485506540969295026859992222067719045821235837452265496369497563394723686484031031404725761562069951071677336294544290395490606636845039498886097512011169193680873465289293320974085319694182743878491355278775019533504033834051779573172763532390951891173687778584231961276270940542208694456967095973767661987424993304286602463136676741702076866344159380073567754225004455288637391242108021526636480364055721979904004858339768681085742376319780980983600141056551194485731292167570299641754742791633346852506585478686611074264002690617371175040843284888751613227628824261942483238720321638025850967233496104114643348162076136525954702361850257700242617923713037847763629867433436854048864278303453770203949250566029645694810259498631198329368400900998092979822214177678544291255418475131750108354111434835154066251859796479127471432835375363220563323607999180611110502872296275405032495961972069595028375830372671003839817445663949185505978729357158582752096325233510831361385611040685921953757814857689675905920616304434756136786052779138063237122967378320995401946519901378791974013892114672918060679673827748268035140726495808152343117510359869790461072064198403774115126005205746987560899936648398073486293029208344633886576785762868794950168784097569523301893142317915444796792387904390649126032704840687103498536989607028382689594957972913176739165783161394048132613624661216690007401357140024803120788830212707648098714602443242589538342763428373784124717353345955302133487408803348214595982797671391703963786036256072842989760887097948661710939370898241031005728550904203202801015718496473984986354223687463850857907378976430965490202065859312928406985679835535722504940675955359604002207052818618794232352280925172656826755803891742584498367165690124093639235506221913438567766139405158894337628213262368361905532926988301997960572425164132725245931221669238816672973196576497705333435309352595646342581175360355557109919601752274848174368465176194570069233226843865496956524025818781204991942769151060906623228716426456866412254860764293926752065564787835538540739251593388814200868147405577212737300607323977430614217067978046850437264991072118767020264952465156918972906854198953555971188722643766759342114152753604152149050892862892933712866296569435727465360843995797384436805709938953996756271610890692092412084131926411445714151908645389089932316481175317841476933445300215396016817468867636106458277647007440142273801137413512186029155481145912608547789650037129891095060174237439908147867484568660368979280417951010401201559472987112274185238480242818503441103008424448205592606622049566328976254489782691447404806174397736129566683090629462187587147239911840590139300789788365505657875146323335727718712527772519189208074848008619981608683802835762268696987272001578703998575345375064172621289467255669388637907016396094404748044261664642692597525322974349140260825002632729989656860110792147184965908249275273896964359618758251242824374024200992608488704461056211506041425141487991704939451361761815055045076446250167921117217176419532786089933408737514451032987224413825348310748744257902652643575997186177751433175166334897841921754736452339862281049576058949951474545301003123496366240064533213733766780981612910976263595421649231812512101858139573102178983763301662756201225689074855053334506999341182644343090488124103993903475334803085003866475194998151570190120829671870885512569579905304388545584443923972189305538572744052074054740225713689668344262631824602071536608268005282695476718940633011775373004630160307739835000206827994084952471276821331401595606355187586052107073116996134362420839420684786744876339257827778662751824667928168404581484743942786664119509692755872504961393400942650764785873529833125245615089180941921317368337811942083183341878484397485609519857399847060032560438419478850059312555384382019214003829244579545019352480793752814370945682216357491049252734536826794302919790291853695085837690052209611664997063468949339771455395834208083928171979336719387335257021489401233887757632768639343799669962948772709969790894418629691311802666170601314436446558638335764757532570121259233947386394310600953206087915187952943886034604145808920364239772017688913763882463177769437525888820643772323062619823541851303425611279176213026387009475579400575351453300443602729220609750831561997189465901558272523732696315834902375310785565265917213740243376909257920366455999780735707724354641325522251914402759211883603365404056332013854867117541768205859986273584831675202161106794621806877751799537273088067774106290859099997661409088995048152534962181561812455482744551785205852073688802163871578480322816502910053331224580568543373637764952620649253220031090331087366002905362146435605938705196600774873953393524939915537519022830497415182826846123049392968789016956670547734592202648951758411422925994626151001122109398502643358150279501879138258833755948408549586411423034300436330062780004641817642380795049496203951029528044980272659356388250690338110125729416089924377019473764895396184689063224624673909473749040490485926613421837775628321941157404218662336858192518641912578915161564579689282133612736197564243124801611375938280092962365777174985082264890504201157626579595957114025899371757181749064437616695022435624468228411616943327178699681845707282335332923609253644506136365823428441957068178391439628556071370816359142994038659881098736761739097258465741832602981485041860204307032849465091790329659821844043829108360209871798576666731791846820022487976470051767195702152373872590410767706862095791640045731109943937081439382935243332540607033683245481122821519196537228077852437825856152452157206339836354232859202040247107328371744170460637513588778029917169159258427045596145838571795578695358269403232328980850409311008503786940886670957770603769016839791106678631982806102118362742341083190419152365956248870574424547945226685253931251332374673678317340607087564730689686854219233650196674043464240420016989696308110087679320646833019379553195825205735578987578039768704591393611972023203402278183737366176954345705685012883825247667668669978228922816695269679666592337262181837280621261798368461762462574738433096828068565662109381477492996448761471194200472684749114731926605015046353770078019556348554692385342292798198892965860256985768541976647122341186220869524814562877134487595048693569367154987845730479763280722919739139567144810736037884686019410921775610646007435058225046938790928320401435811334639374597402260960705686389536838119220859980442841598220690248469808465240922956292853516542792639880649449990321804853394004191214280648454182210108826559101481265119880428167368954908539690321216240866165270528520142211311328767672982700191306192441274462914128798398772988053264384973740643181458330297051934900293069012218133485232116637000871786072535006829930552564580661991397959633500123365791841147498017616599301061078643538410714830121830258217567319044360072061056677646274935595996186828981981783349870162887569205553355274178806988157727252386631949644301123191918297280661301888794979666170230032914222462745992680157433336565840003088168274863579183201821386195078957202377855531256605869698614883571090755995539377022182243282808109317615237783004650898939968678628346835715467641197354259156650864381801687648568603135044364498939093486495135267149932496442264505376272108641697429939180628581041982354159386790559614109699870605307266543822651712702596684296290855607806802670104113303955489954359635956295839069760472749811300119737670661611116680362119186991797428397460775533337610529771077502349373933328332495350256937079623083830605320177653609824343183156640737287712240513949139421559293001294143015225092878911441861659913846183344924196258614489066196253296850310327062419999230348072291543173336565842144560325866604871046676776366717689066571516382567446634435696038700291110536165592168971377337505534337445237804457679946740742539665246951032127854730830497087401914879139056692148471062775457497885863995595464446263292130494258072227547543790789799788383622485401716939079992327743433549378868971857250062437666531282154466058616438690073696201340116398553777110853260982779220357273909390060594992877664737104191094745205678257060730524190882725619128820918684906221548043190044268294269267839348407633196853700354542341791503904782990397530695405050575325477148549690070388922372909254874109417919815154152643960787556595719424572621172599134557253865801194893263618948575797843560018776710788050740496962942268792567241806056046055892977628887115831840027270626261941533436507836220142837810322340549778209726980761749244023042138484094666896212420455051894131191660240298847530888931260661597723799137410971967653057630738495777201717973661296794350601587747526223850506201666316390272976512679296806745359471118013388054678867667762690060938384296476218708899547290313053767459159739266032438024014401796275061990546149618804405582518684560995684855626179503036993394211957395068906069452906435026389169816166654815435501258196216608348997496800780180948662746896185879826137157698670152726075988496538549620184073633620292707975550792995890158881359346915203900848667820924094747880487271709044138984477552120210896869165002376447297293212336071217985689161571319379787165905882540108577371950908607683155398842625366034685671352148207277657606658997071400280020683930676547889974928956870547112271789686620942401103776632027705353881839879610325658433325016324127018694228307710293381347085078012083947580532689809094738454911923452268507387265299637105568281835294107206213921653015473170240896692927401190332609592483929089037657318097324037414390624658999839517683226324237404437117983338560628879743962800550029432659246005307068257299520964397521143833573696176262449110835217386040582798279384510229726881476485982789809781374455930596584015775606290907512613315248107753410025687924958747700256177577468188591882189234988319572618967901086267396890594106086118366935178751170917074994312455115933340386016451714611387159201950217914254524838976359335646742872001576059718286617473938100272063963889420628943805369507973304926993333159207181503262567197794743791992562376716148392482808960711968410912953275022233483769178706990900044392806566662603537843776584568171624192991436156318

def pS500 : PHashMap := ⟨pW500, 500, 1280⟩

/-- Packed state after the first 600 scenario inserts (computed by the mirror). -/
def pW600 : Nat := 1164853768544460941237936083081242663850909345253839927138124882765218095668638194785485515280221836654393677345411941307905816344112356197276900068758865171980814287173062360219585758338991766709603581648751791157906472286650085623911597332654472441781593100756964036504578471493750588792109952963984887256157659675462043166970571508620287868991773640035266918197926723847035922239902578774727293705560223179667500555486034889056766328023330812372691399817542169405652374025751840729424502732086301215668638538235600028139600148793047516841982894253149581185897914403112903920198734704724336587161403104363129430234594113678332995377273953887244463403804746124547389361644210755713751988021887944254819118708255424840113663460876306484313257354418339546961957426166440713575118773494575152845711349127724592796424513828305997201851916026717528483813337678109176781305987270264518304710026917702803390930886737506510968334753709142863234158401295637285479261144883967369772304450944223211731649413912085776869825468730995292061072477832214047578340318002929031527041503684272492308618784168151296773506890422486226508166809959180886154616827553310161869860766640322546504214807283543525691178078466240901273920154352719781900867930455409107005277212658878378156907480360406784374643687042096636397923516121736907166573060596252547549165215105330353695089078570688074656729244766272583111449988219248578314778391060233368672709537599410569395844115292461625227976345423643561307744493488407167855903585482254254504465399820703119966442107842874545790657488324313990223301212114416200835917404100664524781816747344817183641618966893544352926107470913357251571978779758295835013360583166775985683001595666147476557492260503892670807147931627857698469109831429235624354136689725263663893483925142959655962737955338214439460625425274832098459010811860419744662956191318773812243134228233613220306533092079976396659112929451011512324186429360389135594504308660422924063818438392113642816733629154432956398451451447392848796297081684826739351983128725090032668441160098162938287529052636520924910132402487920317918643991596008302208694736249855894059311121535695881377381123996006475661059858208867865106511914752881986199885887873902202470600137955363056927075386129880556545346259086616373219567037124219996612220055548564889104377706916268285249833577540794849873814825578043905117035403499291412309508725038731084520199399902749765489747760074403124069887933055186388511969742920317018283222928510601179712144632628911134870550463474281138015141172881662733641501238956876538441710274784053369844506738836360030915885897285580865245308752847498053420007938494194736400136360254971458354013242232825265943616790310079807466565519898159007928661369559529955799559302048174576564314690906306114200285369734805835676436676911275440663194430045842259121806910939637035101877671083315997529973834074132152169361229032781819967165924602025443133018117368624902025274747758182964157115573323402739713711707396698696367224262705738902826414012074650755768186257256218157783848768474129371088551529609944449095149992993602333886777003213202307686056641415620915961738566540067110308791363938036513330294669154316759242874068497245847709677433982141848700155468029716539835266723251326216178712830744104796493017253290706069588139658021211172186960289710967361403961594087846075412487196174749926950045798052068124838618201644238988994203082870508327495362449016016223793936930062860482724024215139145373765759804896375375558327541748604588602039275881739043484785502551557761109854853212365746112160041888284147030290336015553336092665234098279182331087903828604151685431940220525994197348457362356876045908792711656513871776541097701983656611061904681075551141229333618503046683470088356058881520872495356716144053772884215219252521098328022658815626127832509632711094531450476263368819892982884128066578647197257059861732664736126462364345402305738607955995493300141888878020772396505382446630165662191526035695283993227231318982624795250615433979864678633210329325482471637651545692966714296568096361983253403048505245458144137390947829126851303274681264010291728260487265827019964837871212563154975856135118806500520235337007535207505967518923994326327579556705099068439140628511728212567287924090762311342092940724108531074055514719366344968933222326084917143779884113319469042551139036877644961524197174994890379081583897597116015251234750266816267209784109250002608918199026695489117504091731988177733335017664206769096927488578688781997635288984704154803616583683547847445351263968345102816441776893121400276381231377667190086078924276987551582063642206610580223173144929637660961145179310817025704958372660701091052719872066772553689618776671540920942318101859221599963999352323420777364607684613441941987149847077910787229838963867885700846530148029601465849695882263965970544849230168027684186835308779962280519307760750275068681842569903871284396117594047451786593668108923564115293161266341826072084977896036163969019533007613998334410835383320924264252626931867136467072419653595413038210047154840177101330295123801476385541161863263004410052747089102319396068147550383652151111866704618598532130696416342870633748701986402237602676144663274808771573312604382852177834317477234175164299509595174878424025616157948517641804792375435767157935137585833947503925509088345878024114160045455023610501818609175443088975780041953718170785572258770138673996799940590091858246245441190228603137897699772419272655637282957360142996728740963780658157236641175883636541974932549828616664453102305265929662618839417439553664893399715052009879545950327654528107153833937256120175732399043413890213562629317464610960098134500440532907142158943981183159062962714077066909332161113481166161283192541749357230920531081493616830297157086292057193823957551148919425545697154217822987920860741923844584037021853689498520368719437706794625481069887330525882252603354837779739075422811163449511538271936579589322431851287096083633231877677541189920677777823220469505940964053735647045488722111035283134258341414878761635233324614053684053660287046180459952994806582798266315377594211715908851703278581862643582092780420446007336176870012917271855560814564604560496940759505825121827735190333565529143062683411402106098838765933090286832316304796267779401469569969385868549607999901120535243191218633026294114275222143842858257248347405377547252269119495496600221976877753597881228200961708224604655832075024662318399432200646625703522557977793932694367720937894152023370165890583170883379908190900782265284158522789271092531528906019885279199189420522348940236624620766043209750415958714670652105268516252845444151859437203052189710139283257916753912639692608505281206724372316380902474998649724336070461797272620783934644061661195596201362221131272147734227588627973596536935527956571561178955078558091850146083136410959675152264030621987593109613690327576088942040369762459204049683903083962220741769189950042121489928774183614112926277078558039247448112666442407775562338312005426896120327988404431739880942268877386335730717734060016422857266361091923551994542801522066705486064881821735472879967422145449285319059217102862342437062189801949035669513522276738733470555654240489715591411174064524978618674999990404099576833605731427087411786477677497253820901375569749360146342683460912515914931360159628118014943579615990256535312470237862700511572741192590152613070738442029121461518982954590204359704913274620634592552004151258662960336084975467274229323823264592283356202722060818887675662252914681381051525194740727097738123596853370118889455733945752276087413114740231978200981847641826529473711087837549892431792222908201834053559422261450297689374962511192030861507432780204920470702986394505300157306059539454492908032336324992347609856632080623200798165317562901095253933394479450447518482344392980262719400484793358480781486170074592736101765439472441105133166526103966461043218676904463480177255021833403069241982859519812757602228647699098021283627063761614231566070318496613134229316961766040860551347922712810937781779129266453817258886359903477371211291149647147214958774234587825037969526660840405766510915802526575806821212786964779211079815702241867642163881373218978761861509196565532585649265203356425682773209233587048762610558364870140959461217334664739439211632122948784873007458765767920400204056715492331161455837208194813416018684467140469448056423519685063608919404400584616648970261015348503688053746376442420900166071571986223349091386662460041027034147314798897035841107783814358297802604780751352801274008352546587822066617654217121633491541956384007042346052086710146079757662139459600013610980753826843127522851314810887485223980135364596755767611865201877658277711830236552046699133490572402435669580979211628377950183993564172402485989461175349079326420337759424650179904055973490398367474322841186466429751265547115576704738017219602454950609554667362936964976815480395127750243984225690566741126802651530125451496268981163931169692947455797767338391298796712260268963680527420466360100297407466641783024657443751735039693290569854551593221854527541663942056334311423547415950628660499313541842926464424894606514511965500375568474241668780646738818719441371893470180042390929467034640543864704590341176515219192016024514422982442732698763328117808951468588629509219164050506770071945011418226512488289439402484011290217444915985799970375304388132791690621502515358422973821917185701101072982429889751727251054102095392971474612335153507236972868372442143069517979367682343000317912461714695097036347868651970715834992296374661160641175658136283164467484428172700439173841564566942451599538204178817207683492339537301847516858888774748124835369753841508683160794409028534501223683588531997371048095399207119517637787393251720117576523562284042592319828114493376828836356991398004820776507233018254123641502739452885271911565872559073177865880029080058256147575876565259326077327326999348592155248522295096770375380569666003214742562107147080337039248311159913036811780090742189894096139495034764158895476238069060443832646548962261447176745351143076117956672420960937654964001880504895358106535557194015421056169703922435212772154791661719633761045467543793591523659508756257400671221167872548778250519356747653466313781619695174277503088435710876467512725547120190500254

def pS600 : PHashMap := ⟨pW600, 600, 1280⟩

/-- Packed state after the first 700 scenario inserts (computed by the mirror). -/
def pW700 : Nat := 325087609154505017181869804496611175265376465789987372293616667801916691737545841547009750986897928893389623871263732012833919991395476356865770005441134041705810597585869075209317071457697484608979253428197160267733964038555867685748052054626330944285057617389612455950175836841056899208060331751735816083398686483751982670709574675105637519419791062368542320920413855163225900032469084191943269855710859231678117382317188744857559853737302986513240576795734982904041550823821985535052703982029309233433742137413691996193058403329158881763840009449683604891526235019768226214331035862295078701751511424199058456146508143809033868475732903525024942683951709893704013370056339575554493459580277942859668760047476816052834451972726916050346887413584945201870337342699932370673499141540571421324791745822280151760326713938406529923689475512696481861812750749432990903400858815086141506208630062889350401249594424170731546889098319137920458503433874351302872144978794595626490533234666465027853047271934821143132379478236974366232409005933414432736089156280347938484480129024415774957495333946550533881733246895292621765302798003169632450409404947065014180762894766200531379574424464426183950074528416052062249551564194984241499079742383126406856225366247065343731326658347576648490742125417609422885682350529668149367170892202951080890526433183871051129020434839358138924054236411012024546578941365925842417061394089005743493561631488569825741540447524971653471783994099302419168738721666916903454566909695626037846294728707603048843589826398535103306958408206259661564119166409810701061052815917053096510447865059372891082741518800864721013017244317325473140434928609971509754593487064223356080783795166419930489479467682711346320605853547717685138916064898326558954779921270364179565395341630454809657559626071546996496258589803575627575482538107022660937922561478208157676715833474965351677461735390958594473834745421142574455759094890396186578208089805238185892647428923492283343747822427439911843994335888424256574516701018714747128814180826381730404244492461530704435279509075285483660598910057617892999332741433270339312571641888496428785352881190267866388832097337119518534313414973912579339826101161669759337632830062246352475455705131116034673864862642129388068428479820978533118429548904216425451686416405149442892325092503266315387463925499452903002530799531380220077060126533287251567555786382694098698201352734372216559202439612744791678956217914993622601457914769564406523005045236687619825690331421634273688687079900041913894368572859869398348672381806846002025823361919991200152507921814340199668245403696576794687604688713286080911525819017667929889152797848895281780826736114076036370586366036517785742986247835850504755814166598172637128798486854925180591324105863165195905622550914431190107705760756724198561213147215799087274631083589718144552978661263157557506399819453882328484689049776895130230604041994047361933415924909394715125227187210168377002539585874271851564481968101423269852712250017922161580335197726026037436982025346382936599344786036270447956981989587185625222107424689276493168382101970878303534811662795745612162370222793360661818627062429699900648226765542681140094414674927836054419950409671649277413243311953774574686946264713770280590343794352074513829744385498483603623384772608403212628200941501756711410237176596384464830528381513121232429055630180127329365137349448626597033266836309740000480848940894153160828535077404920166799121031111071778344716395960869693331873022004806639871454394249830353023740909815029120610626090933107258351156709753662501731216464812709716313922742063805928763100437969594553868215025821148705648819533054127872254270674109059960226409369095246385899573503645291108394163697677160623258036755322348640145318644523060071893796049176151109991601581118150769008083325714515532848713926901400451395788587866475234846795063653675816159173579443106239479426426869508610247263169639724982031789896324783213940904991732431680606915907441946771317988742460493209184861460627454503403831859607025863597344251369352624128640099015659117997001553557039844760616812287457273059313248196165993332483578535887287578149724888391170749231794149401868653123323034183583243408423367535103000748821069087816801645158475950693697330170194579560296126139439193999896027516692719220056122682249946297232721145584502813817183329992838601298441903127582347242807684949580480753739727423679774503712508805706064811048211417984803624310376562388472627896134247285371732144886166405498959106931452988650548403418743101464278670510344196873935255380567125054158461946154396466104146258134026678118486294673454842099035463823814730633880431510565565392868161903381314582120475875622890623162082586708868706745409193719591126810412932755876591923584614044972002353523921173495313095236799815801284287889282478639714965162747813336745007841074995556898022980492574206670176331669853066955490209254258350710220865397042027638735562148184325411697588971723371903968833674324706819984279000666126017699995691783136220126539805296517224925000956542613369018882526241172246232550417840950232182924792109325643491318616517442622993469731110740157219021379974659041785482793167056597140104630881446301693196895849394199249102062185866178991672298609204315586210148958788691231149910234748988132380636044752346143688323483428404909591036553005862056671236142656977952915789870813770276305896075013142880893141977195842621001627299380977234291156865729528603507067122311752974907099910634908037751011704553858483785891101663832863391273688988433249477750638486078905729667242595832827157185848418862312746361129105362298188347051529289390824094937485809184204584593056223711156905885855321897903169879045402507388471288336020945375292881433015782390055759800044950507199232704313781361920119456923089602803842971518065868585712364640119267181585105649847992380109263226836085402462358891747204541434975223035898532913144750629967492425023411919873472883410489720509040734191932509531254804893587082156908548437710938678550680049630190091985834762731911368925536885397873505058175682166314385444992291478095111256670652790937094344499187140639952175455655064745780428601360007527515413903239291634570832017962545287320962723201312383245009903090107110756536447381880816322735794515717759151062511491066106842003808457038291119509484389055957386059137211979042412929609378385136650365224610817643549124200029028390857837403904387516130681623620408441541832109201919709309706417209826019102661234021568503110832347528983336109227628977800808979968373134773235362062359231133292050301646909848606771622375690612969308801582776983822370525981049487647352278179055862071973349866032766600763433178315903394272504390931603894885925438084592712724782792533878982220774477657105883450555585233337539481661341066258793058727211052108253539202078346707210493235248344120754337676022918725817868103764134311696294655826419700158932127752158812800866409422847036331170538240639059126320378792761279848986870381908885385698169435434502050547380829842650393583684797482906161953026340585215644997423863684349098760770451447403882753810494271055425639339184928389168009005595586219658905958380748760824727347973380968909797891004478818154949627543210135479771463860440703369931677517319452840657865503227465287419930611917198106087138544709811658914224349524342935754818229649967882181365272199145685760219082806535599668880368543450134975208051623345200014795170355250289597546952742919346265786696939314413770141410255228473593681699150106325853804698350829932027016413151753474329302240427832988062910166177727829717923265826934097256369647412346359017143557556352644936383315001183031990509316225396325493284145529292618947520040546110478887610160604753113309788019281931193933693622261039448711227340859575930165934431887885502989095526933528672312510615117236371186690978988999075877571041221673049236508298263051530790286512875216526229672362991243363240132836027796329697348852449205265549030429567156265245941284525434392851356492380710365309237358515586791324948269232851476005914896368823138842946272411193181821116553451945013032945298909922456254229058415091489625662135361339777485536463871354353449036263658252317425386049388093720467511098840697913053230449415973890931534290473478697170100322609179437406203654735486264921339989383949301778361583574131373618376703010949228923613633902388940325791903653745649512187135220494715544499709062065026520385544001895746108667690483080662222437781883309920308836247135476620420042002240183613378641628552686393929271638350005609955441157445847569376604446752140566789356810241358257600707364609610204673572935036391876603662593091775512482716386710063507256609429343916601423726872856417047536258323647085329132447362540287017954224791740719127359050598522757864465069508920258798525910991653627237913825015258751485458541303172789562906070386301708304451971389909211700038153933884273936413500419771232600607680931503518210706779560023544287782739064162455848538669957516643196613824785489243130893307644565561881265438437084293785350863451207657158613915316360336338711605017695241045899360742542804537819374811479500626951109922707364851884559729126918200117892454280773968944245753781037794114607257364670793855468385160556325873007836441075576989784489455012906211083089137093114376229502358862450079321617145805296763151358744001021724271009180750085197107930226104881142832068440263151216924541757566007153791608259728826138351105618385068934364006008702843424592561060090522634464636454550844862131834191684790218489258501725113840437666618868456488481526083461804936998639315679079275512549618738438744898915812632098880724614883278550318948046595125363849836294530922759868721778025539375846231196562971642414928473585950896297393059325265509452095345667726107452096203906099345004352471441096491037560218679397800990774076385807095807872634098511577432069464812183011582190211547323712197303567095905230516601289367679378995748937686481790251134394165016767640623101647918637648981523139362156704160927854011917636097660921913776517582330219097730702755478193722682146928730136149715782999139778036194495615649305239031783799466112980511711449599435588141115223227196259348184486148797174974298191063846864860163801181082315514084490693706900435448203528025473903548525008572813236688412654179818043288990

def pS700 : PHashMap := ⟨pW700, 700, 1280⟩

/-- Packed state after the first 800 scenario inserts (computed by the mirror). -/
def pW800 : Nat := 325087612339775863217682006566841545837826992023008947147557507186258259015513932267996156571322702910957491604295847744335912398923476790136129054068177354954707560720890943770485299549098789732811877803246366123514403783294189609337249813394836730392739119561526587949914283162959499561413662264877294576925339204605026095502537493352601595241184900711658799903966606882499253596802269617094530189470878732193382775663440169000621945829029827414833524029227443110425713506926256119375733583744916231971844523480890568236099950046538995288593767226463829713954879559971212431428444241540960591030706021109994849857347454823624707044302488871596045295278970721815374846157175916723722851187177320104530366515093730435640571709749368568547859433160540479720229134194749715819274955070587822839564842840584983452323040672588913183000203322638442395664471257453327566919755712906062008388836177024324744259867472977447486225658391033393169074907091117091485435846981652103577839393214014734592157422554451116861473958646156492573803069865955834156922670608669268503861495924005053901283185752389155770345583680241948460297191861802738565470070817328736981830816673515287751346482370071475288303308461751092716863961631812879265192918619534227927584343427863263873700647853829624904460911419760755447970907465703997475542629701941328036640893649821553950207746575820991850392365330364667427980177447352205388297177558098964792381781630878295894999904575745803481118686332811498777388204224625605193575943176156652282308133308368396421996813422406028473796274729920405652683384416690492781801397357545407764793621989638729839270734691482284454990375162453487007429984698696931636735159384147383524906762011441981313510160931954073383389566991790920745524929052845221905981215495071138588499208397992853684540252973909233044417756164217420108951828982865690311416664982743199842190863215494443226279671287958530508245453830336847315513944686286493246324544660356460190699437239511840170999496074255232094152188819831768394723889445459607632084313435096300925393199273599371957401356149684396369168582540679674557088972280829615376537246692023604571000775681679535133974433923193979363576873565149399001526117785795278361656282732197068380605391755550829992192511857103720965012505902332284005441328056991042500405134401153747306576601717780232993263177249586281488864054543989090279111433287744519141799944644798238839921326189539743063926188773895006972030064591548925287789390072432800441755673710993694059821376479968308444621549693882213179733105956088577498908968403841834389984945318178332753469210862167573628177520818414927844923700358639094945784627051730638731640920038109597628507301332516480838660267032318285871517434555323684660093585616964156302630918826957743074183296529288943241268903995357402787453858584734375917528228911596758121895187652898118974926991299677895441154940554735980311881441634976255220641137719694881869571630908651211212545409367929957133567756985362150892196620181589190347565605496675413093184087538008280580021198107233032743688036999735149392523427555217869944053675079000036320815320524000712027767577263482779364567743599291159814624429351296824739070602144619243564552306804172076801963209429651095090756359685018543125256092650211947843730290500159714830208330147814400534076296059873531032391824837557914746615283738303517890743518908390787562355965810512102535185763370705188096687930639005734978407659051678773751598181552387027070662905519032389609903073026597540210602542017790172185211463984002265212847856620525559634273636536988589925854499354986890652314975024423398614383850071760015198401223084031655464641979041835976500944564782030193851197624271014258897457917434156900677351100718141189348636329297467219013350011608500247668771730160269867711486558711303122309997977147617992884543074079022950118688816479708353052259866903196034440429713879635611418973883179602385595510924423885686133015426834702336969182376189893604300107343640505964662174866091240437795370800020134409482410883248665686521590518160757605020834606088796917902979004148412493626356135598429422039415765156640107493713665786385909373363386730492592745510590606066956540547407600287302059310701754708430383371387061947439880444658188173743619898807417577320327995414403216164467681060679340655364429753343852010776935801360307150931415399355433838160485119838676220109016168261040081162114405170617878605462566804042114968921779928615762349714651975385839748670619147842415547998097062046664629134433926110470573490485759476749823427874965363428331479617490939967757862918274012365656419570928129854430290062478943220561516977032619146431290042895796760569585572924094287025866333022522564323658007095993670897324905288541401024089972762320527980040466074947729813658865119726421357821077744333566176155394376733027737736809063592027471659377693152921422231496674259760743125446136234093621670247743164853159538356165529562797433236344051199063553401731072246339524390156862188342634310770040820239697890488428493328120182591642632117918773754852225270036468451901056664050090211130604039662988574018613003044065022509740872489552735967660612514222713282543395029944071213710263814702920242256121789686057672494959814359928816726780784669655998041848568357444834676806549367268539661444286834498834329913013685016392832944512990463660929715941815344031964865836538929499164483434838102434623114076777141919868493219825275865773591055773005724099284120893645888189868774747498385451024546209772206554940176821430017749020869327292448287032737816123623306979641735393138196795415979491180686885903084451914964921317565223961954531607334889394335721645308719806322482358567478015390473140490976167248304965219602873938488790771055551071150436951258169040291669885993256724633596561240436335073229068728614244821409068237528127034835476467220618072254343459399315916728707921945537316759358373716452128290681351997261067793506735461563488116387141347518764637194878057276607529374556367146286120330059646076106450980337122307237857457101643672269775506941326111538868054032434008121189530707891834387779379925449672276537216005298907173613465125261938743289074603847236490612490896763843983308030539205471633165104524018764961640546545759105376008620878708382655370657437804944933606479983776358415494084244264108568860196060233308392961058529913578101144941819789296911583303273543875195468049525615571363786482207915868918870182603643683715346521327635492108078238229478728171631142670075399392045569703954613881869005499411197340816546286339119978810722650274200635820953658169298857695462955611012240134299449007914234627244625330191161702388733071645423994367720243329846048161183420863029579810785742658787495995724059383966441934708383155880475954994285872276487066803926816511825891575347270562225588876528497755429204580806012132165734530194439102140129245117461449097897463399586568181468250070487954812119820578856764156527413309714955577485546067803712032770936026054966799448756255876491375786881924142207806960785023228881649096688223616743291613192429630342697882795968284400129593165705354744952375874999231053206516566789489821336913737343202519043800680904767484805482049552135485226698793753850582873664157844588872388426494928920677372825171156841457829500170981874774104889529013633026218758094836424348520291610599986656015382797379910199606543809986731123688672042367155705327537361645968856404840381284420615169020174718410116987642903539489628471975337389480341029442152844375502012663290612599203698238154336123763955881727142483931923671420551877527427794713699013012570017094938865059140384439335225454707424796328998223047536638074161467215850245221350612527999223981492418767297161537272386363306439766838902917950484097419329599933329891074961833062243095263772584703039751272071837946097854075538316644277612235265562969279644510146076102936522408721252824800919244848178882810745322707468678777605799333252681753832074743178400729886493796249322409949300353442647577668258542805845385560295166136210983769952814919877306886722397913768991411613510792375043064539028087908770848949251043544124724581654416623994933955324532930736988097091546298537091030471311931670506998668918013141559274885299240753244360022339862311828546691880156500731127673079061215020709059989268863478187591991235022567047219058833883513181742041088910321013847759816173908376237315618520131673236723968956880927843648246443073598888501178444418893283669638441229137064030762100359226031852411067009738560665328437724282530796983695823776144841582504274855577112431688685043534694692130999174331390466481183904876396598938690824628764866972751674160133138411954128832177290422438548226308849511496110270544061813771967267919326284346477553620018683690921676247862371956626467176291478733734352643314254653051839290770492942412619875552476445521400954353936606686686912184154341437008568632575731814661999306112976808038982474234588873763015056859869235913594405923526633054996677518808617821624475252890013244160840806280932623211016976872538939836116486053817592185227803897240223984209259187043601290434707940622176657937183556201135997526830561218193720206139645768516142989588276919733923102944641024710865184410378646860200832343467399852709000808991270512567772437790499759018783625945831176736185185196521398075353407772889837164031158337502817697043094258918979482558520250975869633565326029165775802046493468808784054129163854444553783391293167393027914684859188391193440036556904105105699153846501950873360498745473496241016201622585832040920042651503677622706107113400234383628969060901790027891999933934063985044251893464765584945329555550127683386198911517645838868164374899345349098641519799348839571873460897123364723745563164743527996220108088984126431876530384131766800114897195589521083987225349603957887840954950086030433379563542937887566611136882779633387115032458718526350948708004829944044948235216895778614770385349894306705549361687726518199066173063676978113127712431229927099438769235829248498292412222494411770037565567002142956805378005634425597362810170558470598885979984090362632788462178570139016121044987635923581698154196054932761622080992073262061720293770667768518380936538944491296749998263097597836015726625109479277693487836014485230252964828456887329920686580050900185772481270342234335007637184263095963334475578766262735678878

def pS800 : PHashMap := ⟨pW800, 800, 1280⟩

/-- Packed state after the first 900 scenario inserts (computed by the mirror). -/
def pW900 : Nat := 128425293802817163102587145675098052446858136792872749681098048397666914153479171185603506342762047864883237553159777388707192102921507610517961263291382145147251430926515652275409527049648689547088373858493007472398283281423464026477292306544519812378104693313012189887317919468870788409483072800203270610482928234844396470766174987361289155719067317925690417619251716876657684158844692512483495857139832048615378183066849305159691000490758032900778836648372959742499726275742233961958948368794445293387865546511945709221304526036921747879964944196855307319975711541447783194001962642358880865410197469744376346757684831937086965255773218972891908527519245911063243049074579462859437767889242285832730038508314326801284305099308413536927569287151529341678815335161709961031585063739040899136361684373864928934371275990421008125513206773912290121925923112227505970725857856523933942878141668840673684264481051224712239004797005032975652379499103584243650285036940343917251136641871133773935174306573448908856260881027203982999700655138219661893137198009242583688614656226929184107750176659012372136203329695756723549235695631038145425302960009379649198894546953211209610243309345591125492667130287589596647822533231057503026980446888539813187676285736504182010229017693821814483200418102221834186026462510573008891595297263718649606328932055049014355665856486586634259751252755669522734666519554252797388213420986484802093894768945050008213209764492484989802512386404330690899972347220544970676092578275360000062574221635709354448154850021621314905283522163517910644592873735016859706436296630157846696515343811476635112448553684282230760276729371106897763103379950818193645279510726115745928107986449345363528474056956605249591914222386039327836234298235785842407757742113616978463297840447075603716311596341299687446205848572009868857387089768690722263121292820028593143431961145993017645916076719487136914135329718715522838996888857087734656758799093015512246810850566222608045664918222156330112989719381062758910014552582539699158432555002244798573219140951989830585304918988838945407705775658337330992181111596137831023665751390288091698889367388757836726738351137497825958065150266474749263797783570529294514780638546704139552279496251487060861501856059175039253369384049128747958532553844806462868941402482668355716736880955149119101265952556684264329592425479418945532668324028331450575659850863664346294716400966185269941411231145219607536182562181949961323497216653124851439480674904850762848118903226719208608411381046732168086664135345706513148666884401856473044358314781022065245392784651994941714644097406193149783909084901270617572584706137357012457584754404357700793204660422945231076046581121073869290748404528159058854584160831309820029151870913716447327005819328191579353772778267789961602679009952353065286771101915745476859174995574089918771752170448020509950431356523302205435511859853079870174051575487542287484908770329323161903007742345248948885151419340040962281934537075045475788526555032840299503190477699159245091288792506805927838958686411109557833577115506523969454800568923229132369172942998169375411776995706317872757210953680440398619228934303801197408778259551315506996221839623332198939861471459981496595264859256495709059631400745775597215529582741206910189745019931868964117953301536155589867670391150388113296644991436812742729884199688019622403831648536087816663068393548752052129382984533870809566389520181025742011538807006897039601045156960180957825783338494761040357799182771475306895181728671741288121354003514557394836513602286039437392593948246665520828254213105476470370379595849615540056663133933058579600388206961472185553158499057452021778783069485106654146444906626494261658535038387055077094037861112980975783325732435865874695500322740371639343612137496528972108207431489154285575776816246115508379005645556117287569834862659785239659967996046458193335872197365109074739865247899022774324241699871555554048977068491069746946460894567774717928292402672205199259985544265725591317201434360222272105125737470296044356220995954389807254723084573771561532194051370700875754496262322011619105012703883163580837295758800520082297660808044079812087440635271052531354437604222589201034547676487052229477341771030548817702841777803385813328392143846223103682584752951296862972890737342383181820273371920650331745146672829325659916465310041378365564223455379617192066920923958611055883123162350057870017785573567732124227868130289827464797970634330159913658596318372670142844305481634851515170098248927075441644553710768746813253676140959433677046776748018398703624205776822997869217780534428264914164309090214421243248075288264384939737368495360206350638788783112654693439147571434149888569980237081735823328620514522845403515931920838106251134912457846262858021541720373010955965905780828132354807912827679224060425385109891143377296059872856695584440158192985065780303482839387559998665916287144323706494276788040918567069468293939347989681144897884937400432857785354384351049060749273864985631257369405341938828864888855846326039476994740909082678146994481254944940861382968366931028980728364206482961078123778142492207145750869712056252563624062280940941423719966294108461850614860990270152841845943523743697980346511762195117795258876748062133891764844417006609451903589251746580643113721332798919293529644078556654193466373293384597556477484029253804549160522589178904657710967021457694102623874218709702418511214004726239655286650592860776250005531154959594346091029706049504122643919259322320183435462485514109089026251613192822843600889747365544965489768065285865781101648245568250185044111100560574915711048898871927868631888488524701443932622989894554521718930848368849048736478646308439524369483379936589388587950705632208732670538519636063360570228468245143843037845392071561220538813512276760566620117440619653257053769441026407014866245537636488190287357046200440920572476147594588705734159652002456203828240936816698292024148455287736988665104542832754014696603764562782847490899082143520305503694040663219718402305523668569469825903143882245039171725283279693906596508280047031162863649627924714654492472440656371495730315405286883585608651248305088509636836742644534585694197487523266320305119773252954172911933997181562776318353564156243088884142946050637975531045704879714164306170617300361881978362230508933548162189375510886105733332002380843330224896767061938285870910486720459130946457761686648167520016941498010599023739584010421649217832797841154079120761377366888908749902480117812222944840575083045341715561389416148668214262766160059477699389068707142828131334417321994648099254279159012849776522670832418300527587244042077858208475280397626729768675073784785359180167530406034284213255494374206672211224347467456916138244372017288954088856195442367649331387364488191822636032773161417919176324869627697349428499284972203373114764239076009585226011314891167461772158281970752648606672662226319531375843654937955876593207422261098761258204334926950878787555491275735600472091893925191894465244077253656004885149677231284685915631717847778554529609051943067715945443937898420627578709770144652526107539905656090746798393735694764405730642965633812261858057570986963628098470754095984331112123018270896134604351910114386080087011496338747929078006983402824149165641574163981675577686603627760137902515009704061116418297528479859725464084219838161697429448263618009682403101803779846680743050767103272849493950820855291412222204021840126965107968267130455920351579302101594700152738855782451827501286588696052023699657665953228384826203652924045919084956401276238206919150732781181827586441204798158058633465049736192997635073984542835369279113847840993553778843082582372986471406288125020262079219971541907217795665052971057946609281793364787791988602730757014003829124686076716441800138833485259150574321571349285895009764303508919554551967140426543895722345731417983638489092304210469111714834883398856088631466703851061483547870093572353448611495794580790666870161046582344379559133593726072604024297393379926628341359057654635190414599998524919575983317595768613908545534537620684086754141984489080751285122516586317615687196517318229614690766407293537859355467913466949326591374666191861932428885083505104484129168117372209025133205163586779978088278557931068993181947190241784155455140644966394697268386578520813506906248774445752484531016632360649420016613753719968815426785937513297465789781607517140450271767782882374900905521498401530723814011186107898683651817956748699181871956884018109499742310124880554950628995841197899111370063732946158715835280076445441842405683141940841042853671502071590090858601848246822773870083434941521130459991410894952764690029554582637841482515957776033601205011546742757876044139748037615592329843605321774784220427345583569245934704023908246158289537460957683388486870581802637882454912213825468460325558784564091272445911264319490984777342686053849690444434435885821150485744531776932036372877233952965472919317261050108463685485019243895856398983575495254843295893467625423894191785537647578814599766145090747874545590466375966213887310942214362543098248090018443465686722376242350086720237636167332854825486361972610819570329260660523605148910750818032365695316592710191473707269769738438351886131710945349162666598859325676199574614490142503259531283805554621708496103814941693490104795581900758138201417273388434274753747509844328208831645017344646964368970646332807304749843152702134894897320312153753857965303846673446611472454281483922698757587766929150243935262812669876665117385972932010819429274634054384498212423401452668801457233613059813808530003900767276004140974879747614594168275500725958281853973981925584626017866671310622717709005543520679350957542492075427175778199284635854550253706253179700609837321485547194734527752726224731242751271223243979930546302740705972791247776127733068501376772407337008588570667592116982091397747234908460817665921790105529216211814969384433739492326817575165893639426344524110585182661800098218994071072025748490115155331960445134641811738842520084645762818655312096259359341950519922250791784811716198011151885267097929224151801499309301531011250939176735967601601659664115312847266027048732962388950878723889988471109288187548025126563734277916877767003157870496507789780278324144652347154348845473047585143938927106023018546447298238821581219266895312364884281424104491015782732652574112520546247955607552802266211591279898457653264268842094621547671189112568233555829660862191313555403279376608131491261565819642204400808046235415174351763237093574327688174482989512741302742875009540896481524262412406766556739147236806341759547992898894994151814351331836323095160435979075090682856208011470170740138093055118357567085997247423236575726631759871668584423554469635646824699728343825598099675311891657503803349281582350236547122182953164684640025051005973141683555971201628781553691139371591036970941750207775889064172641918716525127468179864067277806833805401076413810689920183259234386856004220674195843316383022769961121791533236380835910729467743524010803370837930687596754144843992824868936700071339955183184159050576159167797485103007905747783523894017902639956863140775471952642405106288739492795631233810404907434838266681054633838498238676234490505283229911412991809174455572054883087905726984992806562435132908301921981330441880399079969841327273216764517837883046485218611761471129820108722134102201791896356280736301893994138886481738951820951488247365945883516505619806769020248082492093492743917066508782846574333100036848364129776526870716164620237985708437008246735326933187037745284780227510882108221750537232032779903614502414106083076825288836432463643386751838053240242637446262424254628806078214326072169184572773766734377185160839697256059857035555661033070553723606300407371716361952950063494517931235809911970144633860971900665333290783488214526226774443420513048690559632278692408020429365202439050052611059866075353418011590579489201024122040543511712494494217230464732763417392616437106663086976017299744707055606285564342208980369256423124887836256649559777158331719436937786595775000343220855345393276640159003606473812586291347666894309857735491885390451962014359967357845055745710682984583530664877378462914853561794578078852457972881235806262303138013383128081912740148736841406525950811010567765749046759050824451366455778072658626525385949168609338843942384944017535496912950477104452121078449453090192724281963810216273603360782344167402738869198220897544968002556601400674577809698135913867565265493678468945617482583548026448245981757740900125924511294498829816830751860545437746921667669464796054591677455651660301193343486171271534220060136980255250700325251416943718079756810673781939296466662286192740449628459845799741459739676539958579381093862227606683715664537161596337832205605087299877984336235607269503561007927162232541865309408948420548321558080873323861469301533906644939076544135304820018312176867407505349396764084744649341933784515462063354313728995446805567435160276392175480055621450950849350865870643033933751884596501204126353827557453381203447913120993851821159838358243032095413356898106011991315065518334079012294004854250277491543440085265992518472682938907025494522933217079987752005735786397407826988106819620830737621377199517860134676568266534650041753006813243881454562267562406297650005716147250000068003376465596825554952418667705059732031665685840923437482892852868193717307242162538351787475834541051446583883834596313981719279648970939548477290358039792660748351386406865059787888720130685959512002230559936773009418249290526213549508390330987161970061868745242446886066424482592206126843489062649839857308808896471080028552249515358645638477363412901420937159675499254666144807805481011490387808215215426028297299975342503125747281294818028940217308199135550980008868818958153862584395104010572395968636559410266194391434200031483476109284134690077020573529014623559625492921620484486938323238182523198014340090066050691911720755641957557381106550743219027599027527035796106269336036371816761358724095838822340986586222616319012979233874731932090184727771786561099656786548989865821979983830249279180277367554438199697883705934693967820538539096632699095046026582138749179334818580839191325593470578714263096789895849588520458479184090321459348066132843708801100922316163545722726413189279040282536064534105764712391362399980724882596226688102998371034398264764571147182803250764995181665414812656745360603920861283378113787820716710108502075035538050660394489111760712143050056291531392457394341044541592039765892424385654535443119131910286407318061342159271488775473295040780382021540984972011068507053167770044807010508785110792657121220767488461312673993995095681069851749313324997074364976577576239410818939291534065316586841866434329245630659246085665623193498292829096610803267242921058386451551742918722337006405235430595368680550866789766059009082703765036761736914223584496594512874875586776829733172284516023489687449604367259272776331227583658001191785555703699334043303785683699652547588644482586467131163676672415332057362487506141497662686342309898306214021149061986680842524360441975579915174592814063650423923024734488891275692150234227954953099720328815315160978572379754186617076261457089966504901880837559104989382424765779650630079507027008414169216106450990150147692594133017638102897004389616127757157557371598427049247545896538729459645646357122502910071707628564162987316417922187113982126883039880370363483316164361382164995290314483741572579054644290546761758831462968111827079609532317284533780349027568531438355251164605658280324097141337800499421438073749803554820419329820163360155927768692222373400237525560678275706682854037207881811465336122936916918299956018130174505332051073229361989650579218282899140959870670758548942786421370008656756587466565826470968928841667353779954754995451899251386374658967638742671855268820599281943386280973751288761792682311019664146536982900730638255886004509330223471129272530843034804998307915028376899956694888985041852814391359429643602751352459707347658504475690282092421900405764799774937220204805002273225602759513006381067762166004537486641378642038101127300352232811480867892828817593451050165102710581271514036360423046309696709781613178380388128642236980219968706956477033011530412083734352099889661949505041295337535958414550672212727938395268660896879823622178054950131182821444430274232476130633619112018582886217154705707415712625726746034604116549187059048559707498961273022340000791198152135210516082576330300725476002807066841062431168558959026329674866056780773628629485460381348671769955131687411620577683400857174960241717103778047088235381046945003901224071809009718928904423791924197227181688066903676284186116069435023974781206272471443897152321869165595708160903576686156831760087177479967353171349638484914436380215071313709614150393255691216369598253498174326416702899151354386426296177756266260116192795859761497761985873698005163105243600441166080628252143152257761598741685677039158674749335550258425809496484601943740381130109112688564593051449571075305305049440066760624811524264237442801943762601753223436644279297089646179315608895763813558463189723229016258436516381882982189543919917631584946474080900075915465221925772340268270027521979879711834915090803499892614385693293637789477312786355754063786731730704024488878694850588373413062689647327175843899474700669061760583092414550171998699651616105555641293096721990960678480271580065090409397999663119398534626338982956035310189374696424638121925759663180935383924854715353837853836002711378072118972951607009531922671233982029738556175364309868354026985578446852805034622522182674727801776328672415824941436197557356221256395472186017244265413052670437267218043298216688793047009763317773441370435155249518306565115403809666929140017199456183888403342051501897545985605780409564586687407030948689418449545485543146103622557223026515887163248605083570415044858977129437539705144122459432017558973988505234631070135766429573248367591905110685080054760064869595567466753712640781825485160412250841462871027518722477327848113353628696109216233814474444737206571555512573292199086667419928142019477959039595454777034359284641033838918003783408910247284297670948930015403823118663983590504986739698921482256654532560158221234270338433114777165587371447968251338862294517391807174680809328425544404193182109174871065461214405124215665328418707835952107793607738464201429922424907629038126536841402716406583062226699747092072076459753494769865919037294564843119824340981105170125455495821487084438790318358058978718967279847528839841331158839295639837262315351294065133852637644110216324961095378556725815250980136100063270457727202500141378206813557072818870363351964601564313053972065010211462585938172632120147159914142417215769770207639005413908696946556516744568504415721425481280872218313097078531390178176414863929407171869407211200314006414536994261985186458752222034433773370199528109429592282630202788274511292768824451370552475857157160432022828744771491831996265247416626092994587920410583159851195518373977652011524653339101003086283053536432392156660168004973268380455487844642837120760788703786983377310758520616143177340031663318934745553700198311304264336269192487882397210054664184409194109510871572188825568514825307613477963193229847696085663719925728323529140251934948638869593916373704111939993146403044051375597640957081135107410447180294447746362389042217157102935499924472529586611968194634067316893735623236027496243505600945553252817596767437709599848055390997669773055141518415488958345849883133159588506454739903627843579955391317073948773797625271749841163167505614475116802503011818420189508411513713314366701150208206624935276750138693983393688137127978427440553969239442430243118654612456000582832809284113269686627864136903678184671795128898598352487947700327927720146670071130108191815987124078854109229680724009599319957215056783028293468820905125467319426924636523511044579423088097954997002358013098761817502082443114340621524827109334082531890424331488906185849609268217457340814634121297453639571435760501041592168883175678971459375856682420032519291056766334204903164483722173833597849157620392783663769084850902448379176377501711772026540348998716962373077388328990410256303590103673765898237410656978554627414444532490722423234204329729131557689951440760520926522242007233298876729094349457143409005691506263540004249613968085950577347627436830438591193575842486374558018610074768319623443171154941081685020923681485835534680496682791128822728844715411460114145039666385451354667733545414606545142704591996831203427974629695268866912593202845599085658918162006016

def pS900 : PHashMap := ⟨pW900, 900, 2560⟩

/-- Packed state after the first 1000 scenario inserts (computed by the mirror). -/
def pW1000 : Nat := 128425293802817163102587145675098052446858136792872749681098048397666914153479171185603506342762047864883237553159777388707192102921507610517961263291382145147251430926515652275409527049648689547088373858493007472398283281423464026477292306544519812378104693313012189887317919468870788409483072800203270610482928234844396470766174987361289155719067317925690417619251716876657684158844692512483495857139832048615378183066849305159691000490758032900778836648372959742499726275742233961958948368794445293387865546511945709221304526036921747879964944196855307319975711541447783194001962642358880865410197469744376401819598487331544500278690338249959946640651344740843201292724303734206815595027886730137525925287038083683294511693507493391183977850465080895934755399716357618740229300695702832037330714513860524413390411890150546364514124064574517862769793242157156682435689695080801144090608772977086152806471772399415535751079249649079553638179918640802653762977591207789930181881172180319126202645005407758699487532529658885371310237591488189678893757537476629326891768835396095481898036992700628168829460887208305692109837971012159439606731526237208349339538331119775297940143643386564757841012159273916787693304793126125001350492925823780647672607286350943570984777654456908183906348561824247418547073660549877539474626907252261683804899757872351254074903352549205755923430354377869109888775496876014495601935076176990086079001021247933110518186884131206203536864811648030003010595355444693085490892135310367453196337503468110420124161746613103273483871947367200062221918653898903655250246186956438302853742158670634148823528460956692139190960377309950864131516494261026203443014128940239700805413962182713404829937476664588224507569307992099799923211981599003714152202434475126962179533914601204545263878881350093489649406578298931639502412653504375496616792072702706081732431401258487603204324180960998144472195897829632883758530545060970082277515078896392687917526675888357301708765252126796909344302705611380469658602498874985748843677312814224300818746118402966821443989714851691473741199972083556311798897225435484994370825291381544946719944716399476753822265427024927276298219576233358775215242505591788201081091047698339921084736715124519291940918559053431577457067601925110624709384364971497056369270727177746031914891020151345335728536346420453141944747599906755717977913317660193000978187711806028206862459211346635857835883057253339935585530778707449470174216278559126248019088872973557128240186401258137269054030224120712615277918301150190919280003684745008616247635854158692652007312596209427521468585478545393522681660000518465301076701778643158289320337910599780685320841542284561312244960046403253185446622838476076181976907880472185866838657496912158846615924407386626695961449099300228188116853727852591575806997860648336311155658764856986485473582611345878180204713883808216961930684513166205956748518614882707070004751621377911938591719678508137457652324637216902038454208077211151518761513825229857433760884176003936507756025229357860565996785081606271540205050666453972411387880168507372235134145316248891727164898548101035821445628027735775626857408397039115453517018311666149775780651335510510346668435935722844420019338932990285306967255121433311020547927366465945395232219248206052370130618651917256224559319103928032883237381895956198457015309695821301152891559107023540298662636678209684830412991539596769394511945083784324218950939366154397521239532243218642289689419374277115771141988713239214230852935312101196720267192024690933134022326080487926717422410645625085037349835742935374614148600569488049180736633822669403151120570591181408117339471403360400805578169239985377379055485454279854111661832971984440226644658095408042321757153683067070060974658286762394353463132418723524295696049045085337837915212097491351936575676683560386996888853672984907203131480582867042707183295061486436952562797192177193534735189282761481923606320525209366998470572997045024481718529118025324537562912419625506631572485738649581440698033775046270795388646356414047658678087347523831305253785149693248687499668927297182736437211001119908950041592669368674576635638213943482689153196266244764602959002719257508148607612674395061939624756306874674057546082633884319214503530172180169772023222186604755702607474459229301670226507902290849683268517565427408864469338328469788707184119024552585446204891951057400236886286885443036320875021742114719759905100284852767751290222650314022046001989194357999423588646691456103897065182385913319527654471412138631455379848960719805369905437543181826791026825181762403444908455369835810906776814478066548546216548252547273307739845219790149995258635127103389315806613105185215097732362596840878021567582907475772360405131377274471339641970177011847663359590629142956124941100164713979101224037466333636867437148110523209373103894017943315478139516932287574188497791690564622749603536784844755040423952479149964259601901648656410362596478734757365149829501835420852349987764139642064208181021477193697201096575148145133934456830453467709692902930543343905671449929822853498541000376791640923232051301797707054897462053140672940429548866606447761636789090709294078757461658363195157211000019799563373353420489113478868697307730570235299636518766167583303411686660100840514677882842491026640106120492955083549400391076251235677493864023900703779743292360226199554487128624997643385729098184666877465732076177803571639636985614811132170600743094353324171483174351666728843841442268461986708552032642934308909310505904376685713390292531763637074802194096803452504164264580689107512546845588015699585443546385922344846424154565879250748551038090121035038593142097364645590489276952783953111184366737630062042527199874914618213967678920458767391604806563255864058287545178309323886398779409583464263735350237685552663980207629978250599747740058926627889703292955884699534672303565188653546898233999286883217772145809401689003311317705572850452332122645782922379475195165304408179210537884988906386778052269335301325091849462721588120489948055562039551443048794881732610023789115603800193013551785420478926921918353930643032970504490698614337996628364453056516726019401861612576344184688188327611214805252415627415773226799114559564946072794317113273521442539284930905078727564983037336702256889151900321658923516771335189787619113737006160305948762633022410787010154732765915859607388583327233466575735098418678152674094815431110757166168390588509943847321504999448136609407518397218679345456413255067639298501294213256861808826724921207463293057054708471966567905345440248937626842109580695601180609424579946557082440237278795448339121928560306616102478359719302814974238521756223930289600718367388803056624453656327770205145936453468854415744009399907013529270727079438670477067015226886747755926520500406651967343029228933685426970583037137747028028076698370183571547893159990253618024512580576379037765438384927541327285863820248609973103359797171362878402813343947030497226042419824822444762822404882210410726636378065115996483239179467853139422384981778606022665978043584155904029949664438333131511445085165796409128380750825270539048067040760880270675798016352568813707854691437543075468633479634501645700211697845304339991356393215072608818108879713530240983471529919619759581417129459990115059132178909052364230030921845190671760844605005513830547011236938753287008293293709919882661185178949270204591021332662860541160552713365705593801936306350525965354624459792435052245322916052613220743834834507877174227830879223417676231907207596831600898636390576266880131549668497435720567054283374074602220630018127853126332008767118841317599728110192258287069214705872889623074458151722016486062027338984978953726307137770149856950942237524488347354557627697399288828163282504651410437048964983471360514298203263887520954945367996845377079891767715182033361083723977559971771794421192844536208923805393878344595023474880583600993146660717201830097020987379388747071858077411651802847488186410388534676872370130407635536116899676488952675494641822956986691906553645580436828821778911371075742835425601435913219647324994627212133711926064036660390248484492477340070298564868493201148952513002315384058606229587017829670565944257860592190288382787262515564619401839758871774836909181437669081900303112559588078070119714555231940980091837270913817883836693762385367002109977197767615253403979708629018672295040338167164344326804975523670702581590630359789818610894144847142860046968445433529200416280313263384822309555900500195967907036634730076531266145880063633538393071140069476051617050540291227467200295287755644349337851455660783066049503799833935609259868998212850584540313181141794910461424606264058230218580284888057667817013680741249720509071579228483249805333083398431706904828744859165745387487991326545451463084864916238095084160258191022459259988272531856527068544680076980138170832516986322346874400426642057898483386248809111463491179435258055494248404532665537896848683289877212692781573598868545770032960443804376144813361376946624457031345536733692498299000837640901423970670501768565148504260048333324321134810385176880782445753363811455976307626619700929064275666795644723730882629030967428904362715660240035469983640692545437918642609710314827561453488973121982829908290157555808582804642873467545348668711104594805353811199386368051784333612923544017796622803003326396807680096827971954935568882418836981937333451610907528058228146638455380327657000164721581002607914707845420930444159731875770883275145375426629848964644822142505000505445474213249980673766591587415323445124349003823927986407307633062674374765157012082206950192006958825169202121541124591614589965992475577097939223706432571437463205597560418197908494614619469983432377013903140664530518855219607298591740526644328348009576010417744888607669155900307430590423096451245771071402080260831454803339682252136257292395850453551531496317855014856820539821192696521384194599071247864456467607885002316893903457342311305702925838483352223318214338920899318911909263784323723816522362647603921542510247695132703869810458542326997488509496929815656708816496067436305966724668963170701921905528504847511058510926844210599755561941513125360611151632546464760842658212622387906325971969862287510268225565244830921950172092718005842773716241854529467178779846010270256049241087128143095856933375941536838142656559997063525759142009889187584780896360522737344933262928887564195891484066761074595582344667501203302536468883822156372547688901100288920401410566262967604415449230547516222721471865252912778922923810410324026803615632021174975565238830103915992645776340884979159586959789035219376658260229000560213236258778183065614580680988882577711872306419808082325121010704371002918208476044782994202550643217923924647946775091068876612441934059599633763770015109034018201894694834961217390046084227726487570257169120356533174874841997209970484223319774436632758640562425011250483350002174116007993841085897925333697130285618684652168692050360179342413846797561719860466292227675965926679784965507927098110719178769880594529340433572671249120531456377362690807474877156826200520009759720920714532956276336624710711111293636010534732721294561322074293773745168375847908609151150498688843051634452962011701457669613668647734773105419294252600585412564992164361240876163609239512018462508327999361049028952693482147271997600772916192587048496522951092580055206001407354428936155391547815620112446531294406899899214726276508444727683614707726972070992259079467679473540726720554937677620555523639536354249624277153506938116792072531669921243308172995743992725041818894055034864474524207910491758527570610139625202616393443928538892697311054008414415601194198451924160099730076814460759607124764987429868250592789540017849245249277949143680545540863915531119164604652712653479938344347841210603096868583875781714485756361378583162624606851036090115212320856253734162315454929948085336548895068547254506422423836034189574268025284145500926077645016594507119323326048139428162290757256612066565244673348731746698315012618476447710358540810817147789251256578729659185341900236375405479775606719071438580754316347025557791294741217515836263089002507614804623447097793974892627244511095635871563500225807796225318432973299939599681364305804182344035063939215572250824269217294651389946621079264970889153374843012774955910115172840951986983372623599335310233104598201404441258006188048487888237326683532694520243765340347270549365944916585063624875217373334820039019578408724121001578028387661952794709188462437708346113530498705819737338243274875569472278699170588534350855865199706881649596646843788911544517479962084620764445637677562438436150466588842025176566281425916007951787697498981731516600835703857740471455888710968806805639246065735311305745647779420609044373726737182480040767465310628912970716937056750359265366479470627960766053124633488843830476330858545279023418456123056177031414044942612484631793773708955131008621786992726052392767754981977369106867075789377503950705511746407180562799318072114916595475205249598523458129204006995467799408326651488706792018840398125384454718650585000183187132908486604356090622526158220391465150820934082787078849180249897182100240659524165677872503195188983318166257577739362616928287749482619962880890468549587138587531757431349233132635110574494539097570339084006082589791877183198066922088997814492296925719068059082253925585986464801085573849749478569651664356937985647974003886269980436616337076591881518841839094498689156902809106193306780310169700983629547230045175983439026759970446117339104505040320574007613498342948866990118601107077989236193987170803763249418338800631944252731734453860082563760192460134803085317994834858502700692605441837992976342529202552341920966199922951169758533269577257929375039787491769078956297520330774289917779545715449365507577794372217682987576437369042048304440118500508091226774554210406770194016400460465412825676077265912627887612527168983247673239514020795215318639562590381632425269818052818546257059241363527609362529472989211213519746860477005272817004362208548803143586541928774665219195940755905398056552747725253487040129903466863137171257363616996550901057291971558497190293133203342796569468267975834651717641823287773511844317277737941387280178723691190810897981358626925532516589825083918089064671324857994331493817762280536045163464994161759225384858397652739870685962831979171250730450224915833939070067040536121208537281558553007774044173154211193790193265287218320827729548387537115343279272919407720783455064286722446597689394748059197952469847315470769697967607916018169025864014420100990433002729936433990412151718887491525819875567029942597574642028974827156652545433156106991111372983234761687575672619354148385306837063151356303682466417873508443725172675148325990335369026681702293983628124637019521886541563924970765185479072902912989458176401504474210677333894538820021162012098969193312301269775006827793681862962234237634936957075007803318465715843388068027061132226105003093385767149505402125977056189284674444633549777759401208453164519370258613083139496689726068004316129158047643286873717794631116336832675824331749894608386167894602551523158441681766965376623772157560027098118018275025425766918101757043547343181969559663629033949266742104605100774749326759221914939520147045950838794280413369753653028666197962308232596363899484471000436305520003737113846578592986377516379141829409975889344558771261789990107861191334855002062159562378309414628105069509047381780477482306609883042051634692981702343844442552286283734397009496283471859994964762244983599927562239254510139379175391047124545702926106044209044754301606085683918128121311130535202907716107602226989034765405725453603859801385308493274593215908929454601448346822837240539011039622166026121617664658464550252874236986328240023882452546901630124890841331912434553526391505885136502227018118552178227596575500182638170596554141853801727175519998800230379436187527630963098134072731957276645392215306264934599555885772931083484331974945903597311895506658541189894648287233725623218897874001693730918087770967358262565819856974121786252073340555913297746986093540773351968188095366257377478291569724597701930732742734401632007588251425829437977826571428675202008642415324967497425720877103748077511388481760657210244430949816195724826100833858021530783118358876513094864509035642981727602397436219711724342310115583159088727181644239474880295444918826606560757062613816214131148852075027790038894370689264326979254219418616296033834297959182814600689288857216725296791517596531074458226757981773995721815756595100162837324248242054128600402775239266356195951503493389275725582472177356778613761589880319923201729276213427003447796227413044502820970959229580393192763394647596805483646036747779227979440349820817295228679782349262343089848064429587729312562584241661649416578342124541091489268055399616809308456116466490506462408738802503801184800591876109917911921876057586731321268496118239891871944732628231180648242014950077624803384952702917438031656686600453738305212063761785641101044376195301342880867778242148970107893055708284702037008959108006861625242546910889652647612935858655395575350423320987900444511383960546684553151416931637310121153783885318978720583038027612552543599347408841010433640674161732356656337652427776290012661548108692614181046838953632483629081274498532240908696516782600116221910879482876016942861142971939676004048693037293771883275993710755675964402061597679137238486364664442649026491546601122350322434189214890914134136301996699735698709405721938624102071219216870414604546018888831617159707411348913644815525129285637359124329756861678622723078892775615834059595216039589454710858686481316263655737871941603532356411849306132237497587003697598516301509130369377170722661040739787178183253481239666376426175510119082490808011454890026246340369848667136537895819012178420577909741637863245462975828681415364740179159647283062463986887798708938665986461231992830185625116763768818683047331310084897882707482112845106699407260527830128292957426245009198692618103877135967629271861763961832546677163653064898058731552838505048552074316616569220696417877706244544410694897719376605591048093948847480255560310432839836371151270239863530814024847899621172505576922585425193398740359065589203107294729039203035513691875435533876934344311220777852280524680764402305496266851616453027477206283253609693140909013906601255412227800458380620432839916108581232197935028622054695145390836036670909724778213649462395678805129715994928671557539688468424971997512933003848040395903985121774298043414189295152132479052321035540303875523975359961062620689618137340436178688660010670459496758292462719592436043187584186274487248040740951572301005493354529852638596041278107565922627608457371178107672544019113810415808079790493623118603379872240811973290628412862970161098658823336294013444672765497491217982886427137194487360748465408723572240792695896730090727636841489855322425902613643270579125542309656291961049765379793828316150583007344918578347806809969802753196192406333249725862138276284945106481906137293831217660772720342703383844648939434469689297658026448950124245009931067658359304926745040455967140478847798669136486364430382155424320984378362912098643898505835791444647894289016130216891938992442639140670688515240938075168644516389214137613363963696641516415955404097786339607338285172935787526759708348747680165481145845359591721973686111488286195433683303002801242307861424203353503718447189773905705164394665153531711391094353920328231686654398087509766037225335262535881835605868819253683984082454222437795779098228738757604693339033628997750159600165838573567978493797311774239807744195393069080956258008884278221984662829825442439516106045157725535313745882927158737388035656763601891372503111786653240940404849200530872040363003081139873080484581043835777914724363312469261666728924420664659022760778418630522085538943809843757002536268696352080895201274196859657263146160187334516703809360860174578732310208971720697942370215739492381849632665991163488919832822152646823399922001961713462644646149192809766535358754868791896369192572479438156300048827616222205819508348707041201723923312252477640931621581409369184087806760523924537901071599825989320207641219603309583764283608198993428958530274676655864834574313797438637951182558007374310915630936352111117863274236319282911877356105511525261730154680592925713467626647101176297378824909241785222145212272739100117550641103682508550665440272272380295149771550540787752983920108613112047593557594724131321791421962258911295622792806587525959706461324696605866948145586594507749844727103427870457856

def pS1000 : PHashMap := ⟨pW1000, 1000, 2560⟩

/-! ### List helper lemmas -/

theorem getD_set_self {α : Type} (l : List α) (i : Nat) (a d : α) (h : i < l.length) :
    (l.set i a).getD i d = a := by
  induction l generalizing i with
  | nil => simp at h
  | cons x xs ih =>
    cases i with
    | zero => rfl
    | succ j => simpa [List.set, List.getD] using ih j (by simpa using h)

theorem getD_set_ne {α : Type} (l : List α) (i j : Nat) (a d : α) (h : i ≠ j) :
    (l.set i a).getD j d = l.getD j d := by
  induction l generalizing i j with
  | nil => rfl
  | cons x xs ih =>
    cases i with
    | zero =>
      cases j with
      | zero => exact absurd rfl h
      | succ j1 => rfl
    | succ i1 =>
      cases j with
      | zero => rfl
      | succ j1 =>
        simpa [List.set, List.getD] using ih i1 j1 (by omega)

theorem getD_none_of_len_le {α : Type} (l : List α) (i : Nat) (d : α)
    (h : l.length ≤ i) : l.getD i d = d := by
  induction l generalizing i with
  | nil => cases i <;> rfl
  | cons x xs ih =>
    cases i with
    | zero => simp at h
    | succ j => simpa [List.getD] using ih j (by simpa using h)

theorem lt_len_of_getD_some {K1 V1 : Type} (l : List (Option (K1 × V1))) (i : Nat)
    (e : K1 × V1) (h : l.getD i none = some e) : i < l.length := by
  by_contra hc
  rw [getD_none_of_len_le l i none (by omega)] at h
  exact Option.noConfusion h

theorem set_of_len_le {α : Type} (l : List α) (i : Nat) (a : α) (h : l.length ≤ i) :
    l.set i a = l := by
  induction l generalizing i with
  | nil => rfl
  | cons x xs ih =>
    cases i with
    | zero => simp at h
    | succ j => simpa [List.set] using ih j (by simpa using h)

theorem countP_set {α : Type} (p : α → Bool) (l : List α) (i : Nat) (a d : α)
    (h : i < l.length) :
    (l.set i a).countP p + (if p (l.getD i d) then 1 else 0) =
      l.countP p + (if p a then 1 else 0) := by
  induction l generalizing i with
  | nil => simp at h
  | cons x xs ih =>
    cases i with
    | zero =>
      simp only [List.set, List.getD, List.get?, List.countP_cons]
      by_cases hx : p x <;> by_cases ha : p a <;> simp [hx, ha] <;> omega
    | succ j =>
      have hj : j < xs.length := by simpa using h
      have := ih j hj
      simp only [List.set, List.getD, List.get?, List.countP_cons] at *
      by_cases hx : p x <;> simp [hx] at * <;> omega

theorem exists_empty_slot {K1 V1 : Type} (l : List (Option (K1 × V1)))
    (h : l.countP (fun s => s.isSome) < l.length) :
    ∃ p, p < l.length ∧ l.getD p none = none := by
  induction l with
  | nil => simp at h
  | cons x xs ih =>
    cases x with
    | none => exact ⟨0, by simp, rfl⟩
    | some e =>
      have hx : xs.countP (fun s => s.isSome) < xs.length := by
        simpa [List.countP_cons] using h
      obtain ⟨p, hp, he⟩ := ih hx
      exact ⟨p + 1, by simpa using hp, he⟩

theorem probe_shift (c s p : Nat) (hs : s < c) (hp : p < c) :
    ∃ j, j < c ∧ (s + j) % c = p := by
  by_cases hsp : s ≤ p
  · exact ⟨p - s, by omega, by rw [Nat.mod_eq_of_lt (by omega)]; omega⟩
  · refine ⟨c + p - s, by omega, ?_⟩
    have h1 : s + (c + p - s) = c + p := by omega
    rw [h1, Nat.add_mod_left, Nat.mod_eq_of_lt hp]

theorem probe_wrap_ne (c idx j : Nat) (hi : idx < c) (hj : j < c) (hj0 : j ≠ 0) :
    (idx + j) % c ≠ idx := by
  intro h
  rcases Nat.lt_or_ge (idx + j) c with hlt | hge
  · rw [Nat.mod_eq_of_lt hlt] at h; omega
  · rw [Nat.mod_eq_sub_mod hge, Nat.mod_eq_of_lt (by omega)] at h; omega

/-! ### Properties of the probe loops -/

theorem insertLoop_spec {key : K} {v : V} :
    ∀ fuel idx (m : HashMap K V) r m',
      insertLoop key v fuel idx m = some (r, m') →
      m'.capacity = m.capacity ∧ m'.elements.length = m.elements.length ∧
        m.size ≤ m'.size ∧ m'.size ≤ m.size + 1 ∧
        occupied m' + m.size ≤ occupied m + m'.size := by
  intro fuel
  induction fuel with
  | zero => intro idx m r m' h; simp [insertLoop] at h
  | succ n ih =>
    intro idx m r m' h
    rcases h0 : m.elements.getD idx none with _ | ⟨ek, ev⟩
    · simp only [insertLoop, h0] at h
      obtain ⟨h1, h2⟩ := Prod.mk.injEq .. ▸ Option.some.injEq .. ▸ h
      subst h2
      refine ⟨rfl, by simp, by simp, by simp, ?_⟩
      rcases Nat.lt_or_ge idx m.elements.length with hlen | hlen
      · have hc := countP_set (fun s => s.isSome) m.elements idx
          (some (key, v)) none hlen
        rw [h0] at hc
        simp only [occupied]
        simp at hc
        omega
      · rw [set_of_len_le _ _ _ hlen]
        simp [occupied]
    · by_cases hk : key = ek
      · simp only [insertLoop, h0, if_pos hk] at h
        obtain ⟨h1, h2⟩ := Prod.mk.injEq .. ▸ Option.some.injEq .. ▸ h
        subst h2
        have hlen := lt_len_of_getD_some _ _ _ h0
        have hc := countP_set (fun s => s.isSome) m.elements idx
          (some (key, v)) none hlen
        rw [h0] at hc
        refine ⟨rfl, by simp, by simp, by simp, ?_⟩
        simp only [occupied]
        simp at hc
        omega
      · simp only [insertLoop, h0, if_neg hk] at h
        have hrec := ih _ _ _ _ h
        have hlen := lt_len_of_getD_some _ _ _ h0
        have hc := countP_set (fun s => s.isSome) m.elements idx
          (none : Option (K × V)) none hlen
        rw [h0] at hc
        simp only [occupied] at *
        simp at hc hrec ⊢
        omega

theorem insertLoop_success {key : K} {v : V} :
    ∀ fuel idx (m : HashMap K V),
      m.capacity = m.elements.length → idx < m.capacity → fuel ≤ m.capacity →
      (∃ j, j < fuel ∧ m.elements.getD ((idx + j) % m.capacity) none = none) →
      (insertLoop key v fuel idx m).isSome := by
  intro fuel
  induction fuel with
  | zero => intro idx m _ _ _ h4; obtain ⟨j, hj, _⟩ := h4; omega
  | succ n ih =>
    intro idx m h1 h2 h3 h4
    rcases h0 : m.elements.getD idx none with _ | ⟨ek, ev⟩
    · simp only [insertLoop, h0]; rfl
    · by_cases hk : key = ek
      · simp only [insertLoop, h0, if_pos hk]; rfl
      · simp only [insertLoop, h0, if_neg hk]
        obtain ⟨j, hj, hempty⟩ := h4
        have hcpos : 0 < m.capacity := by omega
        have hj0 : j ≠ 0 := by
          intro h
          subst h
          rw [Nat.add_zero, Nat.mod_eq_of_lt h2, h0] at hempty
          exact Option.noConfusion hempty
        have hne : (idx + j) % m.capacity ≠ idx :=
          probe_wrap_ne m.capacity idx j h2 (by omega) hj0
        apply ih
        · simpa using h1
        · exact Nat.mod_lt _ hcpos
        · show n ≤ m.capacity
          omega
        · refine ⟨j - 1, by omega, ?_⟩
          have harith : ((idx + 1) % m.capacity + (j - 1)) % m.capacity =
              (idx + j) % m.capacity := by
            rw [Nat.mod_add_mod]
            congr 1
            omega
          simp only [harith]
          rw [getD_set_ne _ _ _ _ _ (fun he => hne he.symm)]
          exact hempty

theorem getLoop_success {key : K} :
    ∀ fuel idx (m : HashMap K V),
      m.capacity = m.elements.length → idx < m.capacity →
      (∃ j, j < fuel ∧ m.elements.getD ((idx + j) % m.capacity) none = none) →
      (getLoop key fuel idx m).isSome := by
  intro fuel
  induction fuel with
  | zero => intro idx m _ _ h4; obtain ⟨j, hj, _⟩ := h4; omega
  | succ n ih =>
    intro idx m h1 h2 h4
    rcases h0 : m.elements.getD idx none with _ | ⟨ek, ev⟩
    · simp only [getLoop, h0]; rfl
    · by_cases hk : key = ek
      · simp only [getLoop, h0, if_pos hk]; rfl
      · simp only [getLoop, h0, if_neg hk]
        obtain ⟨j, hj, hempty⟩ := h4
        have hcpos : 0 < m.capacity := by omega
        have hj0 : j ≠ 0 := by
          intro h
          subst h
          rw [Nat.add_zero, Nat.mod_eq_of_lt h2, h0] at hempty
          exact Option.noConfusion hempty
        apply ih
        · exact h1
        · exact Nat.mod_lt _ hcpos
        · refine ⟨j - 1, by omega, ?_⟩
          have harith : ((idx + 1) % m.capacity + (j - 1)) % m.capacity =
              (idx + j) % m.capacity := by
            rw [Nat.mod_add_mod]
            congr 1
            omega
          rw [harith]
          exact hempty

theorem removeLoop_success {key : K} :
    ∀ fuel idx (m : HashMap K V),
      m.capacity = m.elements.length → idx < m.capacity →
      (∃ j, j < fuel ∧ m.elements.getD ((idx + j) % m.capacity) none = none) →
      (removeLoop key fuel idx m).isSome := by
  intro fuel
  induction fuel with
  | zero => intro idx m _ _ h4; obtain ⟨j, hj, _⟩ := h4; omega
  | succ n ih =>
    intro idx m h1 h2 h4
    rcases h0 : m.elements.getD idx none with _ | ⟨ek, ev⟩
    · simp only [removeLoop, h0]; rfl
    · by_cases hk : ek = key
      · simp only [removeLoop, h0, if_pos hk]; rfl
      · simp only [removeLoop, h0, if_neg hk]
        obtain ⟨j, hj, hempty⟩ := h4
        have hcpos : 0 < m.capacity := by omega
        have hj0 : j ≠ 0 := by
          intro h
          subst h
          rw [Nat.add_zero, Nat.mod_eq_of_lt h2, h0] at hempty
          exact Option.noConfusion hempty
        apply ih
        · exact h1
        · exact Nat.mod_lt _ hcpos
        · refine ⟨j - 1, by omega, ?_⟩
          have harith : ((idx + 1) % m.capacity + (j - 1)) % m.capacity =
              (idx + j) % m.capacity := by
            rw [Nat.mod_add_mod]
            congr 1
            omega
          rw [harith]
          exact hempty

theorem removeLoop_spec {key : K} :
    ∀ fuel idx (m : HashMap K V) r m',
      removeLoop key fuel idx m = some (r, m') →
      m'.capacity = m.capacity ∧ m'.size = m.size ∧
        ((r = none ∧ m' = m) ∨
          ∃ i v, i < m.elements.length ∧ m.elements.getD i none = some (key, v) ∧
            r = some v ∧ m'.elements = m.elements.set i none) := by
  intro fuel
  induction fuel with
  | zero => intro idx m r m' h; simp [removeLoop] at h
  | succ n ih =>
    intro idx m r m' h
    rcases h0 : m.elements.getD idx none with _ | ⟨ek, ev⟩
    · simp only [removeLoop, h0] at h
      obtain ⟨h1, h2⟩ := Prod.mk.injEq .. ▸ Option.some.injEq .. ▸ h
      subst h2
      exact ⟨rfl, rfl, Or.inl ⟨h1.symm, rfl⟩⟩
    · by_cases hk : ek = key
      · simp only [removeLoop, h0, if_pos hk] at h
        obtain ⟨h1, h2⟩ := Prod.mk.injEq .. ▸ Option.some.injEq .. ▸ h
        subst h2 hk
        exact ⟨rfl, rfl, Or.inr ⟨idx, ev, lt_len_of_getD_some _ _ _ h0, h0, h1.symm, rfl⟩⟩
      · simp only [removeLoop, h0, if_neg hk] at h
        exact ih _ _ _ _ h

theorem countP_replicate_none {K1 V1 : Type} (n : Nat) :
    (List.replicate n (none : Option (K1 × V1))).countP (fun s => s.isSome) = 0 := by
  induction n with
  | zero => rfl
  | succ k ih => simp [List.replicate, List.countP_cons, ih]

theorem countP_set_none_le {K1 V1 : Type} (l : List (Option (K1 × V1))) (i : Nat) :
    (l.set i none).countP (fun s => s.isSome) ≤ l.countP (fun s => s.isSome) := by
  rcases Nat.lt_or_ge i l.length with hlen | hlen
  · have hc := countP_set (fun s => s.isSome) l i (none : Option (K1 × V1)) none hlen
    simp at hc
    omega
  · rw [set_of_len_le _ _ _ hlen]

/-! ### Properties of the rehash pass -/

theorem rehashLoop_spec {newCap : Nat} {key : K} {value : V} :
    ∀ fuel idx (vec vec' : List (Option (K × V))),
      rehashLoop newCap key value fuel idx vec = some vec' →
      vec'.length = vec.length ∧
        vec'.countP (fun s => s.isSome) ≤ vec.countP (fun s => s.isSome) + 1 := by
  intro fuel
  induction fuel with
  | zero => intro idx vec vec' h; simp [rehashLoop] at h
  | succ n ih =>
    intro idx vec vec' h
    rcases h0 : vec.getD idx none with _ | ⟨ek, ev⟩
    · simp only [rehashLoop, h0, Option.some.injEq] at h
      subst h
      refine ⟨by simp, ?_⟩
      rcases Nat.lt_or_ge idx vec.length with hlen | hlen
      · have hc := countP_set (fun s => s.isSome) vec idx
          (some (key, value)) none hlen
        rw [h0] at hc
        simp at hc
        omega
      · rw [set_of_len_le _ _ _ hlen]
        omega
    · simp only [rehashLoop, h0] at h
      exact ih _ _ _ h

theorem rehashLoop_success {newCap : Nat} {key : K} {value : V} :
    ∀ fuel idx (vec : List (Option (K × V))),
      vec.length = newCap → idx < newCap →
      (∃ j, j < fuel ∧ vec.getD ((idx + j) % newCap) none = none) →
      (rehashLoop newCap key value fuel idx vec).isSome := by
  intro fuel
  induction fuel with
  | zero => intro idx vec _ _ h4; obtain ⟨j, hj, _⟩ := h4; omega
  | succ n ih =>
    intro idx vec h1 h2 h4
    rcases h0 : vec.getD idx none with _ | ⟨ek, ev⟩
    · simp only [rehashLoop, h0]; rfl
    · simp only [rehashLoop, h0]
      obtain ⟨j, hj, hempty⟩ := h4
      have hcpos : 0 < newCap := by omega
      have hj0 : j ≠ 0 := by
        intro h
        subst h
        rw [Nat.add_zero, Nat.mod_eq_of_lt h2, h0] at hempty
        exact Option.noConfusion hempty
      apply ih
      · exact h1
      · exact Nat.mod_lt _ hcpos
      · refine ⟨j - 1, by omega, ?_⟩
        have harith : ((idx + 1) % newCap + (j - 1)) % newCap =
            (idx + j) % newCap := by
          rw [Nat.mod_add_mod]
          congr 1
          omega
        rw [harith]
        exact hempty

theorem rehashAll_spec {hashF : K → Nat} {newCap : Nat} :
    ∀ (items vec vec' : List (Option (K × V))),
      rehashAll hashF newCap items vec = some vec' →
      vec'.length = vec.length ∧
        vec'.countP (fun s => s.isSome) ≤
          vec.countP (fun s => s.isSome) + items.countP (fun s => s.isSome) := by
  intro items
  induction items with
  | nil =>
    intro vec vec' h
    simp only [rehashAll, Option.some.injEq] at h
    subst h
    simp
  | cons head rest ih =>
    intro vec vec' h
    rcases head with _ | ⟨hk, hv⟩
    · have := ih _ _ h
      simpa [List.countP_cons] using this
    · simp only [rehashAll] at h
      rcases hmid : rehashLoop newCap hk hv newCap (hashF hk % 2 ^ 64 % newCap) vec with
        _ | mid
      · rw [hmid] at h; simp at h
      · rw [hmid] at h
        simp only [Option.some_bind] at h
        have hl := rehashLoop_spec _ _ _ _ hmid
        have hr := ih _ _ h
        refine ⟨by omega, ?_⟩
        simp only [List.countP_cons]
        simp at *
        omega

theorem rehashAll_success {hashF : K → Nat} {newCap : Nat} (hpos : 0 < newCap) :
    ∀ (items vec : List (Option (K × V))) (bnd : Nat),
      vec.length = newCap →
      vec.countP (fun s => s.isSome) + items.countP (fun s => s.isSome) ≤ bnd →
      bnd < newCap →
      (rehashAll hashF newCap items vec).isSome := by
  intro items
  induction items with
  | nil => intro vec bnd _ _ _; simp [rehashAll]
  | cons head rest ih =>
    intro vec bnd h1 h2 h3
    rcases head with _ | ⟨hk, hv⟩
    · refine ih vec bnd h1 ?_ h3
      simpa [List.countP_cons] using h2
    · simp only [rehashAll]
      have hcount : vec.countP (fun s => s.isSome) < vec.length := by
        rw [h1]
        have : (1 : Nat) ≤ (rest.countP (fun s => s.isSome)) + 1 := by omega
        simp only [List.countP_cons] at h2
        simp at h2
        omega
      obtain ⟨p, hp, hpe⟩ := exists_empty_slot vec hcount
      rw [h1] at hp
      have hstart : hashF hk % 2 ^ 64 % newCap < newCap := Nat.mod_lt _ hpos
      obtain ⟨j, hj, hje⟩ := probe_shift newCap _ p hstart hp
      have hsucc : (rehashLoop newCap hk hv newCap (hashF hk % 2 ^ 64 % newCap) vec).isSome :=
        rehashLoop_success _ _ _ h1 hstart ⟨j, hj, by rw [hje]; exact hpe⟩
      rcases hmid : rehashLoop newCap hk hv newCap (hashF hk % 2 ^ 64 % newCap) vec with
        _ | mid
      · rw [hmid] at hsucc; simp at hsucc
      · simp only [Option.some_bind]
        have hl := rehashLoop_spec _ _ _ _ hmid
        refine ih mid bnd (by omega) ?_ h3
        simp only [List.countP_cons] at h2
        simp at h2
        omega

/-! ### Properties of resizing -/

theorem resize_underlying_table_spec {hashF : K → Nat} {m m1 : HashMap K V}
    (h : resize_underlying_table hashF m = some m1) :
    m1.capacity = m.capacity * 2 ∧ m1.size = m.size ∧
      m1.elements.length = m.capacity * 2 ∧ occupied m1 ≤ occupied m := by
  simp only [resize_underlying_table, Option.map_eq_some'] at h
  obtain ⟨vec, hvec, hm1⟩ := h
  subst hm1
  have hs := rehashAll_spec _ _ _ hvec
  refine ⟨rfl, rfl, ?_, ?_⟩
  · simpa using hs.1
  · have := hs.2
    rw [countP_replicate_none] at this
    simpa [occupied] using this

theorem resize_underlying_table_success {hashF : K → Nat} {m : HashMap K V}
    (hInv : Inv m) : (resize_underlying_table hashF m).isSome := by
  obtain ⟨hlen, hcap, hocc, hload⟩ := hInv
  simp only [resize_underlying_table]
  rw [Option.isSome_map']
  apply rehashAll_success (by simp [DEFAULT_CAPACITY] at hcap; omega) _ _ m.size
  · simp
  · rw [countP_replicate_none]
    simpa [occupied] using hocc
  · simp [DEFAULT_CAPACITY] at hcap
    omega

theorem resize_if_needed_spec {hashF : K → Nat} {m m1 : HashMap K V} (hInv : Inv m)
    (h : resize_if_needed hashF m = some m1) :
    m1.capacity = m1.elements.length ∧ m1.size = m.size ∧
      occupied m1 ≤ occupied m ∧ DEFAULT_CAPACITY ≤ m1.capacity ∧
      10 * (m.size + 1) ≤ 7 * m1.capacity ∧
      (m1.capacity = m.capacity ∨ m1.capacity = m.capacity * 2) := by
  obtain ⟨hlen, hcap, hocc, hload⟩ := hInv
  simp only [resize_if_needed] at h
  split at h
  · rename_i htrig
    have hs := resize_underlying_table_spec h
    simp [DEFAULT_CAPACITY] at hcap ⊢
    refine ⟨by omega, hs.2.1, hs.2.2.2, by omega, by omega, Or.inr hs.1⟩
  · rename_i htrig
    obtain rfl : m = m1 := by simpa using h
    exact ⟨hlen, rfl, le_refl _, hcap, by omega, Or.inl rfl⟩

theorem resize_if_needed_success {hashF : K → Nat} {m : HashMap K V} (hInv : Inv m) :
    (resize_if_needed hashF m).isSome := by
  simp only [resize_if_needed]
  split
  · exact resize_underlying_table_success hInv
  · rfl

/-- In a table whose occupancy is below its capacity (with consistent
length), every probe window of `capacity` steps contains an empty slot. -/
theorem probe_window_exists {m : HashMap K V} (hlen : m.capacity = m.elements.length)
    (hocc : occupied m < m.capacity) (idx : Nat) (hidx : idx < m.capacity) :
    ∃ j, j < m.capacity ∧ m.elements.getD ((idx + j) % m.capacity) none = none := by
  have hcount : m.elements.countP (fun s => s.isSome) < m.elements.length := by
    have := hocc
    simp only [occupied] at this
    omega
  obtain ⟨p, hp, hpe⟩ := exists_empty_slot m.elements hcount
  rw [← hlen] at hp
  obtain ⟨j, hj, hje⟩ := probe_shift m.capacity idx p hidx hp
  exact ⟨j, hj, by rw [hje]; exact hpe⟩

/-! ### Invariant preservation and success of the public operations -/

theorem inv_new : Inv (new : HashMap K V) := by
  refine ⟨by simp [new], by simp [new], ?_, by simp [new]⟩
  simp [new, occupied, countP_replicate_none]

theorem inv_insert {hashF : K → Nat} {m : HashMap K V} {k : K} {v : V}
    {r : Option V} {m' : HashMap K V} (hInv : Inv m)
    (h : insert hashF k v m = some (r, m')) : Inv m' := by
  simp only [insert, Option.bind_eq_some] at h
  obtain ⟨m1, h1, h2⟩ := h
  have hr := resize_if_needed_spec hInv h1
  have hs := insertLoop_spec _ _ _ _ _ h2
  have hsz : m1.size = m.size := hr.2.1
  have hocc1 : occupied m1 ≤ m.size := by
    have := hInv.2.2.1
    omega
  refine ⟨?_, ?_, ?_, ?_⟩
  · rw [hs.1, hs.2.1]; exact hr.1
  · rw [hs.1]; exact hr.2.2.2.1
  · have := hs.2.2.2.2
    omega
  · have h5 := hr.2.2.2.2.1
    rw [hs.1]
    omega

theorem insert_success {hashF : K → Nat} (k : K) (v : V) {m : HashMap K V}
    (hInv : Inv m) : (insert hashF k v m).isSome := by
  simp only [insert]
  rcases h1 : resize_if_needed hashF m with _ | m1
  · have h2 : (resize_if_needed hashF m).isSome := resize_if_needed_success hInv
    rw [h1] at h2
    simp at h2
  · rw [Option.some_bind]
    have hr := resize_if_needed_spec hInv h1
    have hcpos : 0 < m1.capacity := by
      have := hr.2.2.2.1
      simp [DEFAULT_CAPACITY] at this
      omega
    have hocc : occupied m1 < m1.capacity := by
      have h5 := hr.2.2.2.2.1
      have := hInv.2.2.1
      have := hr.2.1
      have := hr.2.2.1
      omega
    apply insertLoop_success _ _ _ hr.1 (Nat.mod_lt _ hcpos) (le_refl _)
    exact probe_window_exists hr.1 hocc _ (Nat.mod_lt _ hcpos)

theorem size_lt_capacity_of_inv {m : HashMap K V} (hInv : Inv m) :
    m.size < m.capacity := by
  obtain ⟨_, hcap, _, hload⟩ := hInv
  simp [DEFAULT_CAPACITY] at hcap
  omega

theorem get_success {hashF : K → Nat} (k : K) {m : HashMap K V} (hInv : Inv m) :
    (get hashF k m).isSome := by
  have hcpos : 0 < m.capacity := by
    have := hInv.2.1
    simp [DEFAULT_CAPACITY] at this
    omega
  have hocc : occupied m < m.capacity := by
    have := hInv.2.2.1
    have := size_lt_capacity_of_inv hInv
    omega
  exact getLoop_success _ _ _ hInv.1 (Nat.mod_lt _ hcpos)
    (probe_window_exists hInv.1 hocc _ (Nat.mod_lt _ hcpos))

theorem contains_key_success {hashF : K → Nat} (k : K) {m : HashMap K V}
    (hInv : Inv m) : (contains_key hashF k m).isSome := by
  simp only [contains_key, Option.isSome_map']
  exact get_success k hInv

theorem remove_success {hashF : K → Nat} (k : K) {m : HashMap K V} (hInv : Inv m) :
    (remove hashF k m).isSome := by
  have hcpos : 0 < m.capacity := by
    have := hInv.2.1
    simp [DEFAULT_CAPACITY] at this
    omega
  have hocc : occupied m < m.capacity := by
    have := hInv.2.2.1
    have := size_lt_capacity_of_inv hInv
    omega
  exact removeLoop_success _ _ _ hInv.1 (Nat.mod_lt _ hcpos)
    (probe_window_exists hInv.1 hocc _ (Nat.mod_lt _ hcpos))

theorem inv_remove {hashF : K → Nat} {m : HashMap K V} {k : K}
    {r : Option V} {m' : HashMap K V} (hInv : Inv m)
    (h : remove hashF k m = some (r, m')) : Inv m' := by
  have hs := removeLoop_spec _ _ _ _ _ h
  obtain ⟨hcap, hsz, hframe⟩ := hs
  obtain ⟨hlen, hc20, hocc, hload⟩ := hInv
  rcases hframe with ⟨_, rfl⟩ | ⟨i, v, hi, hie, hr, helts⟩
  · exact ⟨hlen, hc20, hocc, hload⟩
  · refine ⟨?_, by omega, ?_, by omega⟩
    · rw [hcap, helts, List.length_set]; exact hlen
    · have := countP_set_none_le m.elements i
      simp only [occupied] at *
      rw [helts]
      omega

theorem inv_reachable {hashF : K → Nat} {m : HashMap K V}
    (h : Reachable hashF m) : Inv m := by
  induction h with
  | mk_new => exact inv_new
  | mk_insert _ hstep ih => exact inv_insert ih hstep
  | mk_remove _ hstep ih => exact inv_remove ih hstep


/-! ### Claim theorems -/

/-- C8: in every table state reachable from `new()` via the public
operations, `size < capacity` holds after the operation completes,
`capacity` equals the length of the slot array, and `capacity` is strictly
positive. -/
theorem c8_capacity_invariants (hashF : K → Nat) (m : HashMap K V)
    (h : Reachable hashF m) :
    m.size < m.capacity ∧ m.capacity = m.elements.length ∧ 0 < m.capacity := by
  have hI := inv_reachable h
  refine ⟨size_lt_capacity_of_inv hI, hI.1, ?_⟩
  have := hI.2.1
  simp [DEFAULT_CAPACITY] at this
  omega

/-- C8 witness: the invariants hold at the concrete reachable state
`new()`. -/
theorem c8_capacity_invariants_witness :
    (new : HashMap Nat Nat).size < (new : HashMap Nat Nat).capacity ∧
      (new : HashMap Nat Nat).capacity = (new : HashMap Nat Nat).elements.length ∧
      0 < (new : HashMap Nat Nat).capacity :=
  c8_capacity_invariants (fun k => k) new Reachable.mk_new

/-- C9: on every reachable table, the probe loops of `insert`, `get`,
`contains_key` and `remove` (whose fuel is `capacity`, so they inspect at
most `capacity` slots by construction) terminate normally: the fatal
`panic!` branch, modelled as the `none` result, is never taken. -/
theorem c9_no_panic (hashF : K → Nat) (m : HashMap K V) (h : Reachable hashF m)
    (k : K) (v : V) :
    (insert hashF k v m).isSome ∧ (get hashF k m).isSome ∧
      (contains_key hashF k m).isSome ∧ (remove hashF k m).isSome := by
  have hI := inv_reachable h
  exact ⟨insert_success k v hI, get_success k hI, contains_key_success k hI,
    remove_success k hI⟩

/-- C9 witness: no panic at the concrete reachable state `new()` with key
and value `0`. -/
theorem c9_no_panic_witness :
    (insert (fun k : Nat => k) 0 0 (new : HashMap Nat Nat)).isSome ∧
      (get (fun k : Nat => k) 0 (new : HashMap Nat Nat)).isSome ∧
      (contains_key (fun k : Nat => k) 0 (new : HashMap Nat Nat)).isSome ∧
      (remove (fun k : Nat => k) 0 (new : HashMap Nat Nat)).isSome :=
  c9_no_panic (fun k => k) new Reachable.mk_new 0 0

/-- C10: `get` and `contains_key` take the table by shared reference
(`&self`) and are embedded as pure functions of the state, so they cannot
change it; `remove` never changes `capacity` or the slot-array length, and
it modifies at most the single slot that holds the searched key (vacating
it), returning that slot's value. -/
theorem c10_remove_frame (hashF : K → Nat) (m : HashMap K V) (k : K)
    (r : Option V) (m' : HashMap K V) (h : remove hashF k m = some (r, m')) :
    m'.capacity = m.capacity ∧ m'.size = m.size ∧
      m'.elements.length = m.elements.length ∧
      ((r = none ∧ m' = m) ∨
        ∃ i v, i < m.elements.length ∧ m.elements.getD i none = some (k, v) ∧
          r = some v ∧ m'.elements = m.elements.set i none) := by
  have hs := removeLoop_spec _ _ _ _ _ h
  obtain ⟨hcap, hsz, hframe⟩ := hs
  refine ⟨hcap, hsz, ?_, hframe⟩
  rcases hframe with ⟨_, rfl⟩ | ⟨i, v, hi, hie, hr, helts⟩
  · rfl
  · rw [helts, List.length_set]

/-- C10 witness: removing the absent key `0` from `new()` leaves the table
unchanged. -/
theorem c10_remove_frame_witness :
    remove (fun k : Nat => k) 0 (new : HashMap Nat Nat) = some (none, new) ∧
      ((new : HashMap Nat Nat).capacity = (new : HashMap Nat Nat).capacity ∧
        (new : HashMap Nat Nat).size = (new : HashMap Nat Nat).size ∧
        (new : HashMap Nat Nat).elements.length =
          (new : HashMap Nat Nat).elements.length ∧
        (((none : Option Nat) = none ∧ (new : HashMap Nat Nat) = new) ∨
          ∃ i v, i < (new : HashMap Nat Nat).elements.length ∧
            (new : HashMap Nat Nat).elements.getD i none = some (0, v) ∧
            (none : Option Nat) = some v ∧
            (new : HashMap Nat Nat).elements =
              (new : HashMap Nat Nat).elements.set i none)) :=
  ⟨by decide, c10_remove_frame (fun k => k) new 0 none new (by decide)⟩

/-- C5: every insert decomposes as the proactive resize check followed by
the probe-and-place loop run on the resized table (growth strictly before
placement); the check grows the table exactly when
`size + 1 > 0.7 * capacity` (the exact value of the `f64` comparison for
every capacity this program reaches, see `resize_if_needed`); growth sets
the capacity to exactly double its previous value, and the capacity after
the insert is the capacity chosen by the check. -/
theorem c5_resize_policy (hashF : K → Nat) (m : HashMap K V) (k : K) (v : V)
    (r : Option V) (m' : HashMap K V) (h : insert hashF k v m = some (r, m')) :
    insert hashF k v m = (resize_if_needed hashF m).bind
      (fun m1 => insertLoop k v m1.capacity (hashF k % 2 ^ 64 % m1.capacity) m1) ∧
    (resize_if_needed hashF m).map (fun m1 => m1.capacity) =
      some (if 7 * m.capacity < 10 * (m.size + 1) then m.capacity * 2
        else m.capacity) ∧
    m'.capacity =
      (if 7 * m.capacity < 10 * (m.size + 1) then m.capacity * 2
        else m.capacity) := by
  simp only [insert, Option.bind_eq_some] at h
  obtain ⟨m1, h1, h2⟩ := h
  have hcap1 : m1.capacity =
      (if 7 * m.capacity < 10 * (m.size + 1) then m.capacity * 2
        else m.capacity) := by
    simp only [resize_if_needed] at h1
    split at h1
    · rename_i htrig
      rw [if_pos htrig]
      exact (resize_underlying_table_spec h1).1
    · rename_i htrig
      rw [if_neg htrig]
      obtain rfl : m = m1 := by simpa using h1
      rfl
  refine ⟨rfl, ?_, ?_⟩
  · rw [h1, Option.map_some', hcap1]
  · rw [(insertLoop_spec _ _ _ _ _ h2).1, hcap1]

/-- C5 witness: inserting key `0` into `new()` (no growth: 1 ≤ 14). -/
theorem c5_resize_policy_witness :
    insert (fun k : Nat => k) 0 5 (new : HashMap Nat Nat) =
      some (none, ⟨((List.replicate 20 none).set 0 (some (0, 5))), 1, 20⟩) ∧
    (insert (fun k : Nat => k) 0 5 (new : HashMap Nat Nat) =
      (resize_if_needed (fun k : Nat => k) (new : HashMap Nat Nat)).bind
        (fun m1 => insertLoop 0 5 m1.capacity
          ((fun k : Nat => k) 0 % 2 ^ 64 % m1.capacity) m1) ∧
    (resize_if_needed (fun k : Nat => k) (new : HashMap Nat Nat)).map
        (fun m1 => m1.capacity) =
      some (if 7 * (new : HashMap Nat Nat).capacity <
          10 * ((new : HashMap Nat Nat).size + 1)
        then (new : HashMap Nat Nat).capacity * 2
        else (new : HashMap Nat Nat).capacity) ∧
    (⟨((List.replicate 20 none).set 0 (some (0, 5))), 1, 20⟩ :
        HashMap Nat Nat).capacity =
      (if 7 * (new : HashMap Nat Nat).capacity <
          10 * ((new : HashMap Nat Nat).size + 1)
        then (new : HashMap Nat Nat).capacity * 2
        else (new : HashMap Nat Nat).capacity)) :=
  ⟨by decide, c5_resize_policy (fun k => k) new 0 5 none
    ⟨((List.replicate 20 none).set 0 (some (0, 5))), 1, 20⟩ (by decide)⟩

/-- C1 is violated by the code: `remove` (lines 131–164) never decrements
`size`.  Concretely, starting from `new()`, inserting key 0 with value 5
and then removing key 0 returns `Some(5)` as the claim states, but leaves
`size = 1` where the claim requires `size` to decrease by exactly 1 to 0.
The subsequent `get(0)` does return `None` as the claim states.
(The hash function is the model of `DefaultHasher` on `i64`.) -/
theorem c1_remove_size_bug :
    ((insert rustHash 0 5 (new : HashMap Nat Nat)).bind fun p1 =>
      (remove rustHash 0 p1.2).map fun p2 =>
        (p2.1, get rustHash 0 p2.2, p2.2.size)) =
    some (some 5, some none, 1) := by decide

/-- C2 is violated by the code: after `new()`, `insert(0, 5)`,
`remove(0)` — a reachable state — the table has `size = 1` but zero
non-empty slots, because `remove` vacates the slot without decrementing
`size`. -/
theorem c2_size_occupancy_bug :
    ((insert rustHash 0 5 (new : HashMap Nat Nat)).bind fun p1 =>
      (remove rustHash 0 p1.2).map fun p2 => (p2.2.size, occupied p2.2)) =
    some (1, 0) := by decide

/-- C3 is violated by the code: keys 6 and 12 collide under the program's
hash (both hash to slot 0 mod 20).  Starting from `new()`, after
`insert(6, 1)` the probe of `insert(12, 2)` passes over the occupied
slot 0, and the `.take()` at line 56 vacates it without restoring it;
key 12 lands in slot 1.  Immediately after that insert completes, `get(12)`
stops at the now-empty slot 0 and returns `None`, and `contains_key(12)`
is `false` — the round trip fails. -/
theorem c3_round_trip_bug :
    ((insert rustHash 6 1 (new : HashMap Nat Nat)).bind fun p1 =>
      (insert rustHash 12 2 p1.2).map fun p2 =>
        (p2.1, get rustHash 12 p2.2, contains_key rustHash 12 p2.2)) =
    some (none, some none, some false) := by decide

/-- C4 is violated by the code: on the reachable table `{6 ↦ 1}` (size 1),
which does not contain key 12, `insert(12, 100)` returns `None` as claimed,
but the second `insert(12, 200)` also returns `None` (the claim requires
`Some(100)`): the first insert's probe vacated slot 0, so the second insert
places a fresh entry there instead of finding key 12 in slot 1.  The final
size is 3, not 2 = 1 + 1 as the claim requires (the subsequent `get(12)`
does return the last value 200). -/
theorem c4_overwrite_bug :
    ((insert rustHash 6 1 (new : HashMap Nat Nat)).bind fun p1 =>
      (insert rustHash 12 100 p1.2).bind fun p2 =>
        (insert rustHash 12 200 p2.2).map fun p3 =>
          (p1.2.size, p2.1, p3.1, get rustHash 12 p3.2, p3.2.size)) =
    some (1, none, none, some (some 200), 3) := by decide

/-- C7 is violated by the code: after the reachable trace `new()`,
`insert(6, 1)`, `insert(12, 100)`, `insert(12, 200)` the key 12 occupies
two distinct slots (slot 0 and slot 1), because the second insert of 12
could not see the first entry past the slot vacated by `.take()`. -/
theorem c7_duplicate_key_bug :
    ((insert rustHash 6 1 (new : HashMap Nat Nat)).bind fun p1 =>
      (insert rustHash 12 100 p1.2).bind fun p2 =>
        (insert rustHash 12 200 p2.2).map fun p3 => keyCount 12 p3.2) =
    some 2 := by decide

/-! ### Correctness of the packed mirror: digit arithmetic -/

theorem slotBase_pos : 0 < slotBase := by norm_num [slotBase]

theorem digit_lt (w i : Nat) : digit w i < slotBase :=
  Nat.mod_lt _ slotBase_pos

theorem digit_zero (w : Nat) : digit w 0 = w % slotBase := by
  simp [digit]

theorem digit_div (w i : Nat) : digit (w / slotBase) i = digit w (i + 1) := by
  simp only [digit]
  rw [Nat.div_div_eq_div_mul, ← pow_succ']

theorem setDigit_zero (w c : Nat) : setDigit w 0 c = slotBase * (w / slotBase) + c := by
  simp [setDigit, Nat.mul_comm, Nat.mod_one]

theorem setDigit_zero_mod (w c : Nat) (hc : c < slotBase) :
    setDigit w 0 c % slotBase = c := by
  rw [setDigit_zero, Nat.mul_add_mod, Nat.mod_eq_of_lt hc]

theorem setDigit_zero_div (w c : Nat) (hc : c < slotBase) :
    setDigit w 0 c / slotBase = w / slotBase := by
  rw [setDigit_zero, Nat.mul_add_div slotBase_pos, Nat.div_eq_of_lt hc, Nat.add_zero]

theorem setDigit_succ_decomp (w i c : Nat) :
    setDigit w (i + 1) c =
      w % slotBase ^ (i + 1) +
        ((w / slotBase ^ (i + 2) * slotBase + c) * slotBase ^ i) * slotBase := by
  simp only [setDigit]
  rw [pow_succ]
  ring

theorem setDigit_succ_mod (w i c : Nat) :
    setDigit w (i + 1) c % slotBase = w % slotBase := by
  rw [setDigit_succ_decomp, Nat.add_mul_mod_self_right,
    Nat.mod_mod_of_dvd _ (dvd_pow_self slotBase (Nat.succ_ne_zero i))]

theorem setDigit_succ_div (w i c : Nat) :
    setDigit w (i + 1) c / slotBase = setDigit (w / slotBase) i c := by
  rw [setDigit_succ_decomp, Nat.add_mul_div_right _ _ slotBase_pos]
  have h1 : w % slotBase ^ (i + 1) / slotBase = w / slotBase % slotBase ^ i := by
    rw [pow_succ']
    exact Nat.mod_mul_right_div_self w slotBase (slotBase ^ i)
  have h2 : w / slotBase ^ (i + 2) = w / slotBase / slotBase ^ (i + 1) := by
    rw [Nat.div_div_eq_div_mul, ← pow_succ']
  rw [h1, h2]
  simp only [setDigit]
  ring

/-! ### Correctness of the packed mirror: decoding -/

theorem decodeSlots_length : ∀ (len w : Nat), (decodeSlots len w).length = len := by
  intro len
  induction len with
  | zero => intro w; rfl
  | succ n ih => intro w; simp [decodeSlots, ih]

theorem decodeSlots_zero : ∀ len : Nat,
    decodeSlots len 0 = List.replicate len (none : Option (Nat × Nat)) := by
  intro len
  induction len with
  | zero => rfl
  | succ n ih =>
    simp only [decodeSlots, Nat.zero_mod, Nat.zero_div, ih, List.replicate]
    rfl

theorem decodeSlots_getD : ∀ (len w i : Nat), i < len →
    (decodeSlots len w).getD i none = decodeSlot (digit w i) := by
  intro len
  induction len with
  | zero => intro w i h; omega
  | succ n ih =>
    intro w i h
    cases i with
    | zero => simp [decodeSlots, List.getD, digit_zero]
    | succ j =>
      have := ih (w / slotBase) j (by omega)
      simp only [decodeSlots, List.getD, List.get?] at *
      rw [this, digit_div]

theorem decodeSlots_set : ∀ (len w i c : Nat), i < len → c < slotBase →
    (decodeSlots len w).set i (decodeSlot c) = decodeSlots len (setDigit w i c) := by
  intro len
  induction len with
  | zero => intro w i c h _; omega
  | succ n ih =>
    intro w i c h hc
    cases i with
    | zero =>
      simp only [decodeSlots, List.set]
      rw [setDigit_zero_mod _ _ hc, setDigit_zero_div _ _ hc]
    | succ j =>
      simp only [decodeSlots, List.set]
      rw [setDigit_succ_mod, setDigit_succ_div, ih _ j c (by omega) hc]

theorem decodeSlot_eq_none_iff (c : Nat) : decodeSlot c = none ↔ c = 0 := by
  simp only [decodeSlot]
  split <;> simp_all

theorem decodeSlot_of_ne_zero (c : Nat) (hc : c ≠ 0) :
    decodeSlot c = some ((c - 1) / 8192, (c - 1) % 8192) := by
  simp [decodeSlot, hc]

theorem decode_encodeSlot (k v : Nat) (hv : v < 8192) :
    decodeSlot (encodeSlot (some (k, v))) = some (k, v) := by
  have h1 : 1 + k * 8192 + v - 1 = v + k * 8192 := by omega
  simp only [encodeSlot, decodeSlot]
  rw [if_neg (by omega), h1, Nat.add_mul_div_right _ _ (by norm_num),
    Nat.add_mul_mod_self_right, Nat.div_eq_of_lt hv, Nat.mod_eq_of_lt hv,
    Nat.zero_add]

theorem encodeSlot_lt (k v : Nat) (hk : k < 8192) (hv : v < 8192) :
    encodeSlot (some (k, v)) < slotBase := by
  simp only [encodeSlot, slotBase]
  norm_num
  omega

theorem encode_decodeSlot (c : Nat) (hc : c ≠ 0) :
    encodeSlot (some ((c - 1) / 8192, (c - 1) % 8192)) = c := by
  simp only [encodeSlot]
  have := Nat.div_add_mod (c - 1) 8192
  omega

/-! ### Correctness of the packed mirror: the operations -/

theorem unpack_getD (p : PHashMap) (idx : Nat) (h : idx < p.capacity) :
    (unpack p).elements.getD idx none = decodeSlot (digit p.w idx) := by
  simp only [unpack]
  exact decodeSlots_getD _ _ _ h

theorem pInsertLoop_eq (key value : Nat) (hk : key < 8192) (hv : value < 8192) :
    ∀ fuel idx (p : PHashMap), idx < p.capacity →
      insertLoop key value fuel idx (unpack p) =
        (pInsertLoop key value fuel idx p).map (fun rq => (rq.1, unpack rq.2)) := by
  intro fuel
  induction fuel with
  | zero => intro idx p _; rfl
  | succ n ih =>
    intro idx p hidx
    have hcpos : 0 < p.capacity := by omega
    have hset : (decodeSlots p.capacity p.w).set idx (some (key, value)) =
        decodeSlots p.capacity (setDigit p.w idx (encodeSlot (some (key, value)))) := by
      have h1 := decodeSlots_set p.capacity p.w idx (encodeSlot (some (key, value)))
        hidx (encodeSlot_lt _ _ hk hv)
      rw [decode_encodeSlot key value hv] at h1
      exact h1
    by_cases h0 : digit p.w idx = 0
    · have hnone : (decodeSlots p.capacity p.w).getD idx none = none := by
        rw [decodeSlots_getD _ _ _ hidx, h0]; rfl
      simp only [insertLoop, pInsertLoop, unpack, hnone, h0, if_pos rfl,
        Option.map_some', hset]
      simp
    · have hsome : (decodeSlots p.capacity p.w).getD idx none =
          some ((digit p.w idx - 1) / 8192, (digit p.w idx - 1) % 8192) := by
        rw [decodeSlots_getD _ _ _ hidx, decodeSlot_of_ne_zero _ h0]
      by_cases hkey : key = (digit p.w idx - 1) / 8192
      · simp only [insertLoop, pInsertLoop, unpack, hsome, h0, if_neg h0,
          if_pos hkey, Option.map_some', hset]
        simp [hkey]
      · have hset0 : (decodeSlots p.capacity p.w).set idx none =
            decodeSlots p.capacity (setDigit p.w idx 0) := by
          have h1 := decodeSlots_set p.capacity p.w idx 0 hidx slotBase_pos
          simpa only [show decodeSlot 0 = none from rfl] using h1
        simp only [insertLoop, pInsertLoop, unpack, hsome, h0, if_neg h0,
          if_neg hkey, hset0]
        exact ih ((idx + 1) % p.capacity) ⟨setDigit p.w idx 0, p.size, p.capacity⟩
          (Nat.mod_lt _ hcpos)

theorem pGetLoop_eq (key : Nat) :
    ∀ fuel idx (p : PHashMap), idx < p.capacity →
      getLoop key fuel idx (unpack p) = pGetLoop key fuel idx p := by
  intro fuel
  induction fuel with
  | zero => intro idx p _; rfl
  | succ n ih =>
    intro idx p hidx
    have hcpos : 0 < p.capacity := by omega
    by_cases h0 : digit p.w idx = 0
    · have hnone : (decodeSlots p.capacity p.w).getD idx none = none := by
        rw [decodeSlots_getD _ _ _ hidx, h0]; rfl
      simp only [getLoop, pGetLoop, unpack, hnone, h0, if_pos rfl]
      simp
    · have hsome : (decodeSlots p.capacity p.w).getD idx none =
          some ((digit p.w idx - 1) / 8192, (digit p.w idx - 1) % 8192) := by
        rw [decodeSlots_getD _ _ _ hidx, decodeSlot_of_ne_zero _ h0]
      by_cases hkey : key = (digit p.w idx - 1) / 8192
      · simp only [getLoop, pGetLoop, unpack, hsome, h0, if_neg h0, if_pos hkey]
        simp [hkey]
      · simp only [getLoop, pGetLoop, unpack, hsome, h0, if_neg h0, if_neg hkey]
        exact ih ((idx + 1) % p.capacity) p (Nat.mod_lt _ hcpos)

theorem pRehashLoop_eq (newCap key value : Nat)
    (hcode : encodeSlot (some (key, value)) < slotBase)
    (hdec : decodeSlot (encodeSlot (some (key, value))) = some (key, value)) :
    ∀ fuel idx vw, idx < newCap →
      rehashLoop newCap key value fuel idx (decodeSlots newCap vw) =
        (pRehashLoop newCap key value fuel idx vw).map (decodeSlots newCap) := by
  intro fuel
  induction fuel with
  | zero => intro idx vw _; rfl
  | succ n ih =>
    intro idx vw hidx
    have hpos : 0 < newCap := by omega
    have hgetD : (decodeSlots newCap vw).getD idx none = decodeSlot (digit vw idx) :=
      decodeSlots_getD _ _ _ hidx
    by_cases h0 : digit vw idx = 0
    · have hnone : (decodeSlots newCap vw).getD idx none = none := by
        rw [hgetD, h0]; rfl
      have hset : (decodeSlots newCap vw).set idx (some (key, value)) =
          decodeSlots newCap (setDigit vw idx (encodeSlot (some (key, value)))) := by
        have h1 := decodeSlots_set newCap vw idx (encodeSlot (some (key, value))) hidx hcode
        rw [hdec] at h1
        exact h1
      simp only [rehashLoop, pRehashLoop, hnone, h0, if_pos rfl, Option.map_some']
      simp [hset]
    · have hsome : ∃ e, (decodeSlots newCap vw).getD idx none = some e := by
        rw [hgetD, decodeSlot_of_ne_zero _ h0]
        exact ⟨_, rfl⟩
      obtain ⟨e, he⟩ := hsome
      simp only [rehashLoop, pRehashLoop, he, h0, if_neg h0]
      exact ih ((idx + 1) % newCap) vw (Nat.mod_lt _ hpos)

theorem pRehashAll_eq (hashF : Nat → Nat) (newCap : Nat) (hpos : 0 < newCap) :
    ∀ len ow vw,
      rehashAll hashF newCap (decodeSlots len ow) (decodeSlots newCap vw) =
        (pRehashAll hashF newCap len ow vw).map (decodeSlots newCap) := by
  intro len
  induction len with
  | zero => intro ow vw; rfl
  | succ n ih =>
    intro ow vw
    by_cases h0 : ow % slotBase = 0
    · have hhead : decodeSlot (ow % slotBase) = none := by rw [h0]; rfl
      simp only [decodeSlots, hhead, rehashAll, pRehashAll, h0, if_pos rfl]
      exact ih _ vw
    · have hhead : decodeSlot (ow % slotBase) =
          some ((ow % slotBase - 1) / 8192, (ow % slotBase - 1) % 8192) :=
        decodeSlot_of_ne_zero _ h0
      have hcode : encodeSlot (some ((ow % slotBase - 1) / 8192,
          (ow % slotBase - 1) % 8192)) = ow % slotBase :=
        encode_decodeSlot _ h0
      have hstart : hashF ((ow % slotBase - 1) / 8192) % 2 ^ 64 % newCap < newCap :=
        Nat.mod_lt _ hpos
      have hloop := pRehashLoop_eq newCap ((ow % slotBase - 1) / 8192)
        ((ow % slotBase - 1) % 8192)
        (by rw [hcode]; exact Nat.mod_lt _ slotBase_pos)
        (by rw [hcode]; exact hhead.symm ▸ (decodeSlot_of_ne_zero _ h0))
        newCap (hashF ((ow % slotBase - 1) / 8192) % 2 ^ 64 % newCap) vw hstart
      simp only [decodeSlots, hhead, rehashAll, pRehashAll, h0, if_neg h0]
      rw [hloop]
      rcases hres : pRehashLoop newCap ((ow % slotBase - 1) / 8192)
          ((ow % slotBase - 1) % 8192) newCap
          (hashF ((ow % slotBase - 1) / 8192) % 2 ^ 64 % newCap) vw with _ | vw1
      · rfl
      · simp only [Option.map_some', Option.some_bind]
        exact ih _ vw1

theorem pResize_eq (hashF : Nat → Nat) (p : PHashMap) (hpos : 0 < p.capacity) :
    resize_underlying_table hashF (unpack p) = (pResize hashF p).map unpack := by
  simp only [resize_underlying_table, pResize,
    show (unpack p).capacity = p.capacity from rfl,
    show (unpack p).elements = decodeSlots p.capacity p.w from rfl,
    show (unpack p).size = p.size from rfl]
  rw [← decodeSlots_zero (p.capacity * 2)]
  rw [pRehashAll_eq hashF (p.capacity * 2) (by omega) p.capacity p.w 0]
  rcases hres : pRehashAll hashF (p.capacity * 2) p.capacity p.w 0 with _ | vw
  · rfl
  · simp [unpack]

theorem pResizeIfNeeded_eq (hashF : Nat → Nat) (p : PHashMap) (hpos : 0 < p.capacity) :
    resize_if_needed hashF (unpack p) = (pResizeIfNeeded hashF p).map unpack := by
  by_cases hc : 7 * p.capacity < 10 * (p.size + 1)
  · simp only [resize_if_needed, pResizeIfNeeded,
      show (unpack p).capacity = p.capacity from rfl,
      show (unpack p).size = p.size from rfl, if_pos hc]
    exact pResize_eq hashF p hpos
  · simp only [resize_if_needed, pResizeIfNeeded,
      show (unpack p).capacity = p.capacity from rfl,
      show (unpack p).size = p.size from rfl, if_neg hc]
    rfl

theorem pResizeIfNeeded_cap {hashF : Nat → Nat} {p q : PHashMap}
    (h : pResizeIfNeeded hashF p = some q) :
    q.capacity = p.capacity ∨ q.capacity = p.capacity * 2 := by
  simp only [pResizeIfNeeded] at h
  split at h
  · simp only [pResize, Option.map_eq_some'] at h
    obtain ⟨vw, _, hq⟩ := h
    right
    rw [← hq]
  · left
    obtain rfl : p = q := by simpa using h
    rfl

theorem pInsertLoop_cap (key value : Nat) :
    ∀ fuel idx (p : PHashMap) r q,
      pInsertLoop key value fuel idx p = some (r, q) → q.capacity = p.capacity := by
  intro fuel
  induction fuel with
  | zero => intro idx p r q h; simp [pInsertLoop] at h
  | succ n ih =>
    intro idx p r q h
    simp only [pInsertLoop] at h
    split at h
    · obtain ⟨h1, h2⟩ := Prod.mk.injEq .. ▸ Option.some.injEq .. ▸ h
      rw [← h2]
    · split at h
      · obtain ⟨h1, h2⟩ := Prod.mk.injEq .. ▸ Option.some.injEq .. ▸ h
        rw [← h2]
      · exact ih ((idx + 1) % p.capacity) ⟨setDigit p.w idx 0, p.size, p.capacity⟩
          r q h

theorem pInsert_eq (hashF : Nat → Nat) (key value : Nat)
    (hk : key < 8192) (hv : value < 8192) (p : PHashMap) (hpos : 0 < p.capacity) :
    insert hashF key value (unpack p) =
      (pInsert hashF key value p).map (fun rq => (rq.1, unpack rq.2)) := by
  simp only [insert, pInsert]
  rw [pResizeIfNeeded_eq hashF p hpos]
  rcases hres : pResizeIfNeeded hashF p with _ | p1
  · rfl
  · simp only [Option.map_some', Option.some_bind]
    have hp1 : 0 < p1.capacity := by
      rcases pResizeIfNeeded_cap hres with h | h <;> omega
    rw [show (unpack p1).capacity = p1.capacity from rfl]
    exact pInsertLoop_eq key value hk hv p1.capacity
      (hashF key % 2 ^ 64 % p1.capacity) p1 (Nat.mod_lt _ hp1)

theorem pGet_eq (hashF : Nat → Nat) (key : Nat) (p : PHashMap)
    (hpos : 0 < p.capacity) :
    get hashF key (unpack p) = pGet hashF key p := by
  simp only [get, pGet, show (unpack p).capacity = p.capacity from rfl]
  exact pGetLoop_eq key p.capacity (hashF key % 2 ^ 64 % p.capacity) p
    (Nat.mod_lt _ hpos)

theorem pContains_eq (hashF : Nat → Nat) (key : Nat) (p : PHashMap)
    (hpos : 0 < p.capacity) :
    contains_key hashF key (unpack p) = pContains hashF key p := by
  rw [contains_key, pContains, pGet_eq hashF key p hpos]

theorem pInsOne_eq (p : PHashMap) (i : Nat) (hpos : 0 < p.capacity)
    (hi : i < 1000) : insOne (unpack p) i = unpack (pInsOne p i) := by
  have hk : 3 * i < 8192 := by omega
  have hv : 8 * i + 5 < 8192 := by omega
  simp only [insOne, pInsOne]
  rw [pInsert_eq rustHash (3 * i) (8 * i + 5) hk hv p hpos]
  rcases hres : pInsert rustHash (3 * i) (8 * i + 5) p with _ | ⟨r, q⟩
  · rfl
  · rfl

theorem pInsOne_pos (p : PHashMap) (i : Nat) (hpos : 0 < p.capacity) :
    0 < (pInsOne p i).capacity := by
  simp only [pInsOne]
  rcases hres : pInsert rustHash (3 * i) (8 * i + 5) p with _ | ⟨r, q⟩
  · exact hpos
  · simp only [pInsert, Option.bind_eq_some] at hres
    obtain ⟨p1, h1, h2⟩ := hres
    have hq := pInsertLoop_cap _ _ _ _ _ _ _ h2
    rcases pResizeIfNeeded_cap h1 with h | h <;> simp only [] <;> omega

theorem pInsFrom_eq : ∀ (n lo : Nat) (p : PHashMap), 0 < p.capacity →
    lo + n ≤ 1000 → insFrom (unpack p) lo n = unpack (pInsFrom p lo n) := by
  intro n
  induction n with
  | zero => intro lo p _ _; rfl
  | succ k ih =>
    intro lo p hpos hle
    simp only [insFrom, pInsFrom]
    rw [pInsOne_eq p lo hpos (by omega)]
    exact ih (lo + 1) (pInsOne p lo) (pInsOne_pos p lo hpos) (by omega)

theorem pInsFrom_add : ∀ (a b lo : Nat) (p : PHashMap),
    pInsFrom p lo (a + b) = pInsFrom (pInsFrom p lo a) (lo + a) b := by
  intro a
  induction a with
  | zero => intro b lo p; simp [pInsFrom]
  | succ k ih =>
    intro b lo p
    have h1 : k + 1 + b = k + b + 1 := by omega
    rw [h1]
    simp only [pInsFrom]
    rw [ih b (lo + 1) (pInsOne p lo)]
    have h2 : lo + 1 + k = lo + (k + 1) := by omega
    rw [h2]

set_option maxRecDepth 40000

theorem pchunk1 : pInsFrom pNew 0 100 = pS100 := by decide

theorem pchunk2 : pInsFrom pS100 100 100 = pS200 := by decide

theorem pchunk3 : pInsFrom pS200 200 100 = pS300 := by decide

theorem pchunk4 : pInsFrom pS300 300 100 = pS400 := by decide

theorem pchunk5 : pInsFrom pS400 400 100 = pS500 := by decide

theorem pchunk6 : pInsFrom pS500 500 100 = pS600 := by decide

theorem pchunk7 : pInsFrom pS600 600 100 = pS700 := by decide

theorem pchunk8 : pInsFrom pS700 700 100 = pS800 := by decide

theorem pchunk9 : pInsFrom pS800 800 100 = pS900 := by decide

theorem pchunk10 : pInsFrom pS900 900 100 = pS1000 := by decide

theorem pFullRun : pInsFrom pNew 0 1000 = pS1000 := by
  have e1 : pInsFrom pNew 0 1000 = pInsFrom pS100 100 900 := by
    rw [(by norm_num : (1000 : Nat) = 100 + 900), pInsFrom_add, pchunk1]
  have e2 : pInsFrom pS100 100 900 = pInsFrom pS200 200 800 := by
    rw [(by norm_num : (900 : Nat) = 100 + 800), pInsFrom_add, pchunk2]
  have e3 : pInsFrom pS200 200 800 = pInsFrom pS300 300 700 := by
    rw [(by norm_num : (800 : Nat) = 100 + 700), pInsFrom_add, pchunk3]
  have e4 : pInsFrom pS300 300 700 = pInsFrom pS400 400 600 := by
    rw [(by norm_num : (700 : Nat) = 100 + 600), pInsFrom_add, pchunk4]
  have e5 : pInsFrom pS400 400 600 = pInsFrom pS500 500 500 := by
    rw [(by norm_num : (600 : Nat) = 100 + 500), pInsFrom_add, pchunk5]
  have e6 : pInsFrom pS500 500 500 = pInsFrom pS600 600 400 := by
    rw [(by norm_num : (500 : Nat) = 100 + 400), pInsFrom_add, pchunk6]
  have e7 : pInsFrom pS600 600 400 = pInsFrom pS700 700 300 := by
    rw [(by norm_num : (400 : Nat) = 100 + 300), pInsFrom_add, pchunk7]
  have e8 : pInsFrom pS700 700 300 = pInsFrom pS800 800 200 := by
    rw [(by norm_num : (300 : Nat) = 100 + 200), pInsFrom_add, pchunk8]
  have e9 : pInsFrom pS800 800 200 = pInsFrom pS900 900 100 := by
    rw [(by norm_num : (200 : Nat) = 100 + 100), pInsFrom_add, pchunk9]
  rw [e1, e2, e3, e4, e5, e6, e7, e8, e9, pchunk10]

theorem new_eq_unpack_pNew : (new : HashMap Nat Nat) = unpack pNew := by
  simp [new, unpack, pNew, decodeSlots_zero]

/-- C6: the concrete scenario.  Inserting keys `3 * i` with values
`8 * i + 5` for `i = 0, …, 999` into `new()` does yield `size = 1000` and
`capacity = 2560` as the claim states, but the four keys 3, 33, 63 and 300
are all ABSENT afterwards (`contains_key` returns `false`): the `.take()`
slip in `insert` (line 56) destroys every entry the probe passes over, and
under the program's own hash (`DefaultHasher` = SipHash-1-3, modelled by
`rustHash`) each of these four keys is destroyed by a later colliding
insert.  This contradicts the claim and the repository's own test
`test_resizing_by_adding_many_items`. -/
theorem c6_thousand_inserts :
    (insFrom new 0 1000).size = 1000 ∧ (insFrom new 0 1000).capacity = 2560 ∧
      contains_key rustHash 3 (insFrom new 0 1000) = some false ∧
      contains_key rustHash 33 (insFrom new 0 1000) = some false ∧
      contains_key rustHash 63 (insFrom new 0 1000) = some false ∧
      contains_key rustHash 300 (insFrom new 0 1000) = some false := by
  have heq : insFrom new 0 1000 = unpack pS1000 := by
    rw [new_eq_unpack_pNew,
      pInsFrom_eq 1000 0 pNew (by norm_num [pNew, DEFAULT_CAPACITY]) (by norm_num),
      pFullRun]
  rw [heq]
  refine ⟨rfl, rfl, ?_, ?_, ?_, ?_⟩ <;>
    rw [pContains_eq rustHash _ pS1000 (by norm_num [pS1000])] <;> decide


end RustHashMap
